import Mathlib

/-!
# Law-mapping browser: the paginated fetch controller

A shallow embedding of `src/pages/LawMapping.jsx`.  The React component is
modelled as a labelled transition system: a `State` record holds the
component state (`useState` cells and `useRef` cells), and every event-loop
task (a click, a timer callback, the settlement of the remote call) is one
atomic `step`.  The asynchronous function `fetchMappings` is split at its
single `await` into `fetchMappings` (everything up to the remote call) and
`fetchMappingsSettle` (everything after it, including `catch` and
`finally`).

Three smaller parts follow it: the details page `src/pages/MappingDetails.jsx`
(the way back to the list, the drag of the notes popup, the titles of stored
notes), the footer rule of `src/App.js`, and `regenerate` of
`src/pages/LegalChatbot.jsx`.
-/

namespace LawMapping

/-! ## JavaScript values -/

/-- JavaScript primitive values (numbers are restricted to integers). -/
inductive Prim where
  | undefined
  | null
  | bool (b : Bool)
  | num (n : Int)
  | str (s : String)
  deriving DecidableEq, Repr

/-- A flat JSON object, as an association list; one record of the list view. -/
abbrev Obj := List (String × Prim)

/-- The value of a property of the response object. -/
inductive Val where
  | prim (p : Prim)
  | array (xs : List Obj)
  | object (o : Obj)
  deriving DecidableEq, Repr

/-- The value the remote call resolves with. -/
inductive Resp where
  | prim (p : Prim)
  | array (xs : List Obj)
  | object (fields : List (String × Val))
  deriving DecidableEq, Repr

/-- The value the remote call rejects with.  `error msg` is any value whose
`message` property is the string `msg` (an `Error` object); `noMessage` is a
value without a `message` property (a thrown string, number or plain
object); `nullish` is `undefined` or `null`. -/
inductive Rejection where
  | error (message : String)
  | noMessage
  | nullish
  deriving DecidableEq, Repr

/-- JavaScript truthiness of a primitive. -/
def Prim.truthy : Prim → Bool
  | .undefined => false
  | .null => false
  | .bool b => b
  | .num n => n != 0
  | .str s => s != ""

/-- The result of `typeof` on a primitive. -/
def Prim.typeofName : Prim → String
  | .undefined => "undefined"
  | .null => "object"
  | .bool _ => "boolean"
  | .num _ => "number"
  | .str _ => "string"

/-- Truthiness of a property value: arrays and objects are truthy. -/
def Val.truthy : Val → Bool
  | .prim p => p.truthy
  | .array _ => true
  | .object _ => true

/-- Property read `o[k]` on a flat object; a missing key reads `undefined`. -/
def Obj.getProp (o : Obj) (k : String) : Prim :=
  (o.lookup k).getD .undefined

/-- Property read `v[k]` on a truthy property value: only plain objects carry
the keys of the model, primitives and arrays read `undefined`. -/
def Val.getProp (v : Val) (k : String) : Prim :=
  match v with
  | .object o => o.getProp k
  | _ => .undefined

/-- Property read `data[k]` on a response that passed the object check. -/
def Resp.getProp (d : Resp) (k : String) : Val :=
  match d with
  | .object fields => (fields.lookup k).getD (.prim .undefined)
  | _ => .prim .undefined

/-- The test `haystack.includes(needle)` on character lists. -/
def includesChars (needle : List Char) : List Char → Bool
  | [] => needle.isEmpty
  | c :: cs => needle.isPrefixOf (c :: cs) || includesChars needle cs

/-- The method `String.prototype.includes`. -/
def jsIncludes (haystack needle : String) : Bool :=
  includesChars needle.data haystack.data

/-- The code points removed by `String.prototype.trim` (WhiteSpace and
LineTerminator of the language standard). -/
def isJsWhitespace (c : Char) : Bool :=
  let n := c.toNat
  n == 0x09 || n == 0x0A || n == 0x0B || n == 0x0C || n == 0x0D || n == 0x20 ||
  n == 0xA0 || n == 0x1680 || (0x2000 ≤ n && n ≤ 0x200A) || n == 0x2028 ||
  n == 0x2029 || n == 0x202F || n == 0x205F || n == 0x3000 || n == 0xFEFF

/-- The test `value.trim() === ''`. -/
def trimIsEmpty (s : String) : Bool :=
  s.data.all isJsWhitespace

/-! ## Component state -/

/-- The four filter inputs. -/
inductive FilterName where
  | search
  | subject
  | source_section
  | target_section
  deriving DecidableEq, Repr

/-- The `filters` object; key order is the order of the fields. -/
structure Filters where
  search : String
  subject : String
  source_section : String
  target_section : String
  deriving DecidableEq, Repr

/-- The object the filters are reset to. -/
def emptyFilters : Filters :=
  { search := "", subject := "", source_section := "", target_section := "" }

/-- The key of a filter in the `filters` object. -/
def FilterName.key : FilterName → String
  | .search => "search"
  | .subject => "subject"
  | .source_section => "source_section"
  | .target_section => "target_section"

/-- Read `filters[name]`. -/
def Filters.get (f : Filters) : FilterName → String
  | .search => f.search
  | .subject => f.subject
  | .source_section => f.source_section
  | .target_section => f.target_section

/-- The update `{...prev, [filterName]: value}`. -/
def Filters.set (f : Filters) (name : FilterName) (value : String) : Filters :=
  match name with
  | .search => { f with search := value }
  | .subject => { f with subject := value }
  | .source_section => { f with source_section := value }
  | .target_section => { f with target_section := value }

/-- The list `Object.entries(filters)`, in key order. -/
def Filters.entries (f : Filters) : List (String × String) :=
  [("search", f.search), ("subject", f.subject),
   ("source_section", f.source_section), ("target_section", f.target_section)]

/-- The constant `pageSize`. -/
def pageSize : Nat := 50

/-- The constant `validTypes`. -/
def validTypes : List String := ["bns_ipc", "bsa_iea", "bnss_crpc"]

/-- One call of `apiService.getLawMappingsWithOffset(offset, limit, params)`
together with the `isLoadMore` argument of the `fetchMappings` call that made
it; `id` is the position of the call in the order of issue. -/
structure Request where
  id : Nat
  isLoadMore : Bool
  offset : Nat
  limit : Nat
  params : List (String × Prim)
  deriving DecidableEq, Repr

/-- The timer started by the effect that loads data for a mapping type: the
one of the initial mount re-checks `isFetchingRef` when it fires, the one of
a later change does not. -/
inductive LoadTimer where
  | initial
  | changed
  deriving DecidableEq, Repr

/-- What the history records: a request was issued, a successful response
was written into the list, or a failure was handled. -/
inductive Obs where
  | issued (id : Nat) (isLoadMore : Bool)
  | applied (id : Nat) (isLoadMore : Bool)
  | failed (id : Nat) (isLoadMore : Bool)
  deriving DecidableEq, Repr

/-- State of the mounted component together with its environment (pending
timers, requests in flight) and a history of what happened. -/
structure State where
  /-- The ref `isMountedRef.current`. -/
  mounted : Bool
  mappingType : String
  mappings : List Obj
  loading : Bool
  error : Option String
  totalCount : Prim
  hasMore : Bool
  isSearching : Bool
  offset : Nat
  /-- The ref `offsetRef.current`. -/
  offsetRef : Nat
  /-- The ref `isInitialMountRef.current`. -/
  isInitialMountRef : Bool
  /-- The ref `isFetchingRef.current`. -/
  isFetchingRef : Bool
  filters : Filters
  /-- The ref `filtersRef.current`. -/
  filtersRef : Filters
  /-- Requests issued and not yet settled, oldest first. -/
  inflight : List Request
  /-- Number of requests issued so far. -/
  issuedCount : Nat
  /-- The pending timer of the load effect, if any. -/
  loadTimer : Option LoadTimer
  /-- The pending 800 ms timer with the `filters` its closure captured. -/
  debounceTimer : Option Filters
  /-- Pending 100 ms timers started by `applyFilters`. -/
  applyTimers : Nat
  /-- Pending 100 ms timers started by `clearFilters`. -/
  clearTimers : Nat
  /-- History, oldest first. -/
  log : List Obs
  deriving DecidableEq, Repr

/-! ## fetchMappings -/

/-- The filter entries that are added to `params`: a value is skipped when it
is falsy or blank after `trim`. -/
def filterParams (f : Filters) : List (String × Prim) :=
  (f.entries.filter (fun kv => !(kv.2 == "" || trimIsEmpty kv.2))).map
    (fun kv => (kv.1, Prim.str kv.2))

/-- The second sweep over `params`: every key except `mapping_type` whose
value is `""`, `null` or `undefined` is deleted. -/
def removeEmptyParams (params : List (String × Prim)) : List (String × Prim) :=
  params.filter (fun kv =>
    kv.1 == "mapping_type" ||
      !(kv.2 == Prim.str "" || kv.2 == Prim.null || kv.2 == Prim.undefined))

/-- The `params` object built by `fetchMappings`. -/
def buildParams (mappingType : String) (currentOffset : Nat) (activeFilters : Filters) :
    List (String × Prim) :=
  removeEmptyParams
    ([("limit", Prim.num pageSize), ("offset", Prim.num currentOffset),
      ("mapping_type", Prim.str mappingType)] ++ filterParams activeFilters)

/-- The synchronous part of `fetchMappings(isLoadMore, customFilters)`, up to
and including the remote call. -/
def fetchMappings (s : State) (isLoadMore : Bool) (customFilters : Option Filters) : State :=
  if !s.mounted then s
  else if s.isFetchingRef && !isLoadMore then s
  else
    let activeFilters := customFilters.getD s.filtersRef
    let currentOffset := if isLoadMore then s.offsetRef else 0
    let req : Request :=
      { id := s.issuedCount, isLoadMore := isLoadMore, offset := currentOffset,
        limit := pageSize, params := buildParams s.mappingType currentOffset activeFilters }
    { s with
      isFetchingRef := if isLoadMore then s.isFetchingRef else true
      isSearching := if isLoadMore then true else s.isSearching
      loading := if isLoadMore then s.loading else true
      error := if isLoadMore then s.error else none
      inflight := s.inflight ++ [req]
      issuedCount := s.issuedCount + 1
      log := s.log ++ [Obs.issued s.issuedCount isLoadMore] }

/-- How the promise returned by `fetchMappings` settles. -/
inductive Completion where
  | fulfilled
  | rejectedTypeError
  deriving DecidableEq, Repr

/-- The message shown for a failure whose `message` is `msg`. -/
def classifyError (msg : String) : String :=
  if jsIncludes msg "401" || jsIncludes msg "Authentication" then
    "Authentication required. Please log in to access mappings."
  else if jsIncludes msg "403" || jsIncludes msg "Forbidden" then
    "Access denied. Please check your permissions."
  else if jsIncludes msg "500" || jsIncludes msg "Internal Server" then
    "Server error. Please try again later."
  else if jsIncludes msg "Network" || jsIncludes msg "fetch" then
    "Network error. Please check your internet connection and try again."
  else if msg != "" then msg
  else "Failed to fetch law mappings. Please try again."

/-- The `finally` block. -/
def finallyBlock (s : State) (isLoadMore : Bool) : State :=
  if s.mounted then
    { s with
      loading := false
      isSearching := false
      isFetchingRef := if isLoadMore then s.isFetchingRef else false }
  else s

/-- The `catch` block followed by `finally`, for the caught value `e`.
Reading `error.message` of a nullish value, or calling `includes` on a
missing `message`, raises a `TypeError` inside the handler: the promise is
rejected and neither `setError` nor `setMappings` runs. -/
def catchBlock (s : State) (r : Request) (e : Rejection) : State × Completion :=
  if !s.mounted then (finallyBlock s r.isLoadMore, .fulfilled)
  else
    match e with
    | .error msg =>
      let s1 := { s with
        error := some (classifyError msg)
        mappings := if r.isLoadMore then s.mappings else []
        log := s.log ++ [Obs.failed r.id r.isLoadMore] }
      (finallyBlock s1 r.isLoadMore, .fulfilled)
    | .noMessage => (finallyBlock s r.isLoadMore, .rejectedTypeError)
    | .nullish => (finallyBlock s r.isLoadMore, .rejectedTypeError)

/-- The array taken from a response that passed the object check. -/
def mappingsArrayOf (data : Resp) : List Obj :=
  match data.getProp "data" with
  | .array xs => xs
  | _ =>
    match data with
    | .array xs => xs
    | _ => []

/-- The value of `data.pagination_info || {}`. -/
def paginationInfoOf (data : Resp) : Val :=
  let v := data.getProp "pagination_info"
  if v.truthy then v else .object []

/-- The part of the `try` block after the remote call resolved with `data`,
followed by `catch` and `finally`. -/
def onResolved (s : State) (r : Request) (data : Resp) : State × Completion :=
  match data with
  | .prim p =>
    catchBlock s r
      (.error ("Invalid API response: Expected object but got " ++ p.typeofName))
  | _ =>
    let mappingsArray := mappingsArrayOf data
    if !s.mounted then (finallyBlock s r.isLoadMore, .fulfilled)
    else
      let paginationInfo := paginationInfoOf data
      let has_more := paginationInfo.getProp "has_more"
      let total_count := paginationInfo.getProp "total_count"
      let s1 := { s with
        mappings := if r.isLoadMore then s.mappings ++ mappingsArray else mappingsArray
        offset := if r.isLoadMore then s.offset + mappingsArray.length else mappingsArray.length
        offsetRef :=
          if r.isLoadMore then s.offsetRef + mappingsArray.length else mappingsArray.length
        hasMore := has_more != Prim.bool false
        totalCount :=
          if total_count != Prim.undefined then total_count
          else if !r.isLoadMore then
            Prim.num (mappingsArray.length + (if has_more.truthy then pageSize else 0))
          else s.totalCount
        log := s.log ++ [Obs.applied r.id r.isLoadMore] }
      (finallyBlock s1 r.isLoadMore, .fulfilled)

/-- How the remote call settles. -/
inductive Outcome where
  | resolved (data : Resp)
  | rejected (e : Rejection)
  deriving DecidableEq, Repr

/-- The part of `fetchMappings` that runs once the remote call of request `r`
has settled. -/
def fetchMappingsSettle (s : State) (r : Request) (o : Outcome) : State × Completion :=
  match o with
  | .resolved data => onResolved s r data
  | .rejected e => catchBlock s r e

/-! ## Effects and event handlers -/

/-- The initial mapping type: `typeParam` is the result of
`searchParams.get('type')` (`none` for `null`). -/
def getInitialMappingType (typeParam : Option String) : String :=
  match typeParam with
  | some t => if t != "" && validTypes.contains t then t else "bns_ipc"
  | none => "bns_ipc"

/-- The state of the first render, before any effect has run. -/
def initialRender (typeParam : Option String) : State :=
  { mounted := true
    mappingType := getInitialMappingType typeParam
    mappings := []
    loading := false
    error := none
    totalCount := Prim.num 0
    hasMore := true
    isSearching := false
    offset := 0
    offsetRef := 0
    isInitialMountRef := true
    isFetchingRef := false
    filters := emptyFilters
    filtersRef := emptyFilters
    inflight := []
    issuedCount := 0
    loadTimer := none
    debounceTimer := none
    applyTimers := 0
    clearTimers := 0
    log := [] }

/-- The effect "Reset filters when mapping type changes". -/
def resetEffect (s : State) : State :=
  { s with filters := emptyFilters, mappings := [], offset := 0, hasMore := true }

/-- The effect "Load initial data when mapping type changes"; the cleanup of
its previous run has cleared the timer that run started. -/
def loadEffect (s : State) : State :=
  let s1 := { s with offset := 0, offsetRef := 0, mappings := [], hasMore := true, error := none }
  if s1.isInitialMountRef then
    { s1 with loadTimer := some LoadTimer.initial, isInitialMountRef := false }
  else if !s1.isFetchingRef then { s1 with loadTimer := some LoadTimer.changed }
  else { s1 with loadTimer := none }

/-- The auto-apply effect after a render in which `filters` replaced `prev`:
it runs again only when one of the three non-text values differs; its cleanup
clears the pending timer, and a new timer capturing the rendered `filters`
is started unless this is the initial mount or a fresh fetch is in flight. -/
def debounceEffect (prev : Filters) (s : State) : State :=
  if s.filters.subject = prev.subject ∧ s.filters.source_section = prev.source_section ∧
      s.filters.target_section = prev.target_section then s
  else if s.isInitialMountRef then { s with debounceTimer := none }
  else if s.isFetchingRef then { s with debounceTimer := none }
  else { s with debounceTimer := some s.filters }

/-- The component right after mounting: first render and its effects. -/
def mount (typeParam : Option String) : State :=
  loadEffect (resetEffect (initialRender typeParam))

/-- The state change `setMappingType(t)` with the effects it triggers; React
skips the update when the value is unchanged. -/
def setMappingType (s : State) (t : String) : State :=
  if t = s.mappingType then s
  else
    let s1 := loadEffect (resetEffect { s with mappingType := t })
    debounceEffect s.filters { s1 with filtersRef := s1.filters }

/-- The effect "Update mapping type when URL query parameter changes", run
when `location.search` changed and `searchParams.get('type')` is `typeParam`. -/
def urlSyncEffect (s : State) (typeParam : Option String) : State :=
  match typeParam with
  | some t =>
    if t != "" && validTypes.contains t && t != s.mappingType then setMappingType s t else s
  | none => s

/-- The handler `handleFilterChange(filterName, value)` and the effects of the render
that follows. -/
def handleFilterChange (s : State) (name : FilterName) (value : String) : State :=
  let f := s.filters.set name value
  debounceEffect s.filters { s with filters := f, filtersRef := f }

/-- The handler `clearFilters()` and the effects of the render that follows. -/
def clearFilters (s : State) : State :=
  debounceEffect s.filters
    { s with
      filters := emptyFilters
      filtersRef := emptyFilters
      mappings := []
      hasMore := true
      offset := 0
      offsetRef := 0
      clearTimers := s.clearTimers + 1 }

/-- The callback of the timer started by `clearFilters`. -/
def clearFiltersTimer (s : State) : State :=
  fetchMappings s false none

/-- The handler `applyFilters()`. -/
def applyFilters (s : State) : State :=
  if s.isFetchingRef then s
  else
    { s with
      mappings := []
      hasMore := true
      offset := 0
      offsetRef := 0
      error := none
      applyTimers := s.applyTimers + 1 }

/-- The callback of the timer started by `applyFilters`. -/
def applyFiltersTimer (s : State) : State :=
  fetchMappings s false (some s.filtersRef)

/-- The test `hasActiveFilters` of the auto-apply timer. -/
def hasActiveFilters (f : Filters) : Bool :=
  f.entries.any (fun kv =>
    if kv.1 == "search" then false else kv.2 != "" && !trimIsEmpty kv.2)

/-- The callback of the 800 ms auto-apply timer whose closure captured
`captured` as `filters`. -/
def debounceCallback (s : State) (captured : Filters) : State :=
  if hasActiveFilters captured && !s.isFetchingRef then
    let currentFilters := s.filtersRef
    fetchMappings
      { s with mappings := [], hasMore := true, offset := 0, offsetRef := 0, error := none }
      false (some currentFilters)
  else s

/-- The callback of the timer started by the load effect. -/
def loadTimerCallback (s : State) (t : LoadTimer) : State :=
  match t with
  | .initial => if !s.isFetchingRef then fetchMappings s false none else s
  | .changed => fetchMappings s false none

/-- The callback `loadMoreData()`, up to the remote call. -/
def loadMoreData (s : State) : State :=
  if !s.hasMore || s.loading || s.isSearching || !s.mounted then s
  else fetchMappings s true none

/-- The `onClick` handler of the Retry button in the error banner. -/
def retryClick (s : State) : State :=
  fetchMappings { s with error := none } false none

/-- The remote call of the request `id` settles with `o`. -/
def settle (s : State) (id : Nat) (o : Outcome) : State :=
  match s.inflight.find? (fun r => r.id == id) with
  | none => s
  | some r =>
    (fetchMappingsSettle { s with inflight := s.inflight.filter (fun q => q.id != id) } r o).1

/-- The cleanup of the effects on unmount. -/
def unmount (s : State) : State :=
  { s with mounted := false, loadTimer := none, debounceTimer := none }

/-- The effect "Sync offset ref with state", run after a render in which
`offset` changed. -/
def syncOffsetRef (before after : State) : State :=
  if after.offset = before.offset then after else { after with offsetRef := after.offset }

/-! ## Transition system -/

/-- The tasks of the event loop that touch the component. -/
inductive Event where
  | urlChange (typeParam : Option String)
  | clickCategory (t : String)
  | filterChange (name : FilterName) (value : String)
  | applyFilters
  | clearFilters
  | loadMore
  | retryClick
  | fireLoadTimer
  | fireDebounce
  | fireApplyTimer
  | fireClearTimer
  | settle (id : Nat) (o : Outcome)
  | unmount
  deriving DecidableEq, Repr

/-- One task, without the offset-sync effect. -/
def stepCore (s : State) : Event → State
  | .urlChange p => if s.mounted then urlSyncEffect s p else s
  | .clickCategory t => if s.mounted && validTypes.contains t then setMappingType s t else s
  | .filterChange name value => if s.mounted then handleFilterChange s name value else s
  | .applyFilters => if s.mounted then applyFilters s else s
  | .clearFilters => if s.mounted then clearFilters s else s
  | .loadMore => loadMoreData s
  | .retryClick => if s.mounted then retryClick s else s
  | .fireLoadTimer =>
    match s.loadTimer with
    | some t => loadTimerCallback { s with loadTimer := none } t
    | none => s
  | .fireDebounce =>
    match s.debounceTimer with
    | some f => debounceCallback { s with debounceTimer := none } f
    | none => s
  | .fireApplyTimer =>
    if 0 < s.applyTimers then applyFiltersTimer { s with applyTimers := s.applyTimers - 1 } else s
  | .fireClearTimer =>
    if 0 < s.clearTimers then clearFiltersTimer { s with clearTimers := s.clearTimers - 1 } else s
  | .settle id o => settle s id o
  | .unmount => if s.mounted then unmount s else s

/-- One task of the event loop and the render that follows it. -/
def step (s : State) (e : Event) : State :=
  syncOffsetRef s (stepCore s e)

/-- Run a sequence of tasks. -/
def run (s : State) (es : List Event) : State :=
  es.foldl step s

/-- The states the component can reach from a mount. -/
inductive Reachable : State → Prop where
  | mount (typeParam : Option String) : Reachable (mount typeParam)
  | step {s : State} (e : Event) : Reachable s → Reachable (step s e)

/-- Whether the trailing sentinel of the list is rendered, so that the
scroll observer can call `loadMoreData`. -/
def sentinelRendered (s : State) : Bool :=
  s.hasMore && !(s.loading && s.mappings.isEmpty) && !(s.mappings.isEmpty && s.error.isNone)

/-- Whether some filter value is non-blank (the condition of the "Clear All
Filters" button of the empty list). -/
def anyFilterSet (f : Filters) : Bool :=
  f.entries.any (fun kv => kv.2 != "" && !trimIsEmpty kv.2)

/-- Whether the rendered page lets the task happen: the control exists and is
not disabled, the timer is pending, the request is in flight.  The panel with
the subject and section inputs and its Apply and Clear buttons is rendered
only when `showFilters` is true, which nothing sets; so the only filter input
is the search box, `applyFilters` is reached by Enter in the search box
(guarded by `!loading && !isFetchingRef.current`), and `clearFilters` by the
"Clear All Filters" button of the empty list. -/
def uiEnabled (s : State) : Event → Bool
  | .urlChange _ => s.mounted
  | .clickCategory t => s.mounted && validTypes.contains t
  | .filterChange name _ => s.mounted && name == FilterName.search
  | .applyFilters => s.mounted && !s.loading && !s.isFetchingRef
  | .clearFilters =>
    s.mounted && !(s.loading && s.mappings.isEmpty) &&
      (s.mappings.isEmpty && s.error.isNone) && anyFilterSet s.filters
  | .loadMore => s.mounted && sentinelRendered s
  | .retryClick => s.mounted && s.error.isSome && !s.loading
  | .fireLoadTimer => s.loadTimer.isSome
  | .fireDebounce => s.debounceTimer.isSome
  | .fireApplyTimer => 0 < s.applyTimers
  | .fireClearTimer => 0 < s.clearTimers
  | .settle id _ => s.inflight.any (fun r => r.id == id)
  | .unmount => s.mounted

/-- Run a sequence of tasks, each of which the rendered page allows at the
moment it happens. -/
def runUI (s : State) : List Event → Option State
  | [] => some s
  | e :: es => if uiEnabled s e then runUI (step s e) es else none

/-! ## Properties and example runs -/

/-- The requests in flight that are fresh fetches. -/
def freshInFlight (s : State) : List Request :=
  s.inflight.filter (fun r => !r.isLoadMore)

/-- The history shows no load-more response appended after a fresh fetch
that was issued later than that load-more request. -/
def NoLateAppend (log : List Obs) : Prop :=
  ∀ (i j k a b : Nat), i < j → j < k →
    log[i]? = some (Obs.issued a true) → log[j]? = some (Obs.issued b false) →
    log[k]? = some (Obs.applied a true) → False

/-- The history shows fresh responses applied in the order of issue: a fresh
response applied after a fresh fetch was issued does not belong to an earlier
request. -/
def FreshInOrder (log : List Obs) : Prop :=
  ∀ (j k a b : Nat), j < k →
    log[j]? = some (Obs.issued b false) → log[k]? = some (Obs.applied a false) → b ≤ a

/-- A record with the given id. -/
def sampleRecord (n : Int) : Obj := [("id", Prim.num n)]

/-- The response object `{data: xs, pagination_info: {has_more: more}}`. -/
def samplePage (xs : List Obj) (more : Bool) : Resp :=
  Resp.object
    [("data", Val.array xs), ("pagination_info", Val.object [("has_more", Prim.bool more)])]

/-- The first page arrives: the mount timer fires and its fresh fetch
resolves with two records and `has_more: true`. -/
def firstPageLoaded : List Event :=
  [Event.fireLoadTimer,
   Event.settle 0 (Outcome.resolved (samplePage [sampleRecord 1, sampleRecord 2] true))]

/-- After the first page a load-more fails; the user clicks Retry in the
banner and that fresh fetch fails too; then the scroll observer loads more
and the request succeeds with one record. -/
def staleOffsetRun : List Event :=
  firstPageLoaded ++
  [Event.loadMore,
   Event.settle 1 (Outcome.rejected (Rejection.error "Network request failed")),
   Event.retryClick,
   Event.settle 2 (Outcome.rejected (Rejection.error "Network request failed")),
   Event.loadMore,
   Event.settle 3 (Outcome.resolved (samplePage [sampleRecord 3] true))]

/-- After the first page the user types into the search box and, without
applying, scrolls to the end of the list. -/
def unappliedSearchRun : List Event :=
  firstPageLoaded ++ [Event.filterChange FilterName.search "theft", Event.loadMore]

/-- After the first page a load-more is issued; before it settles the user
switches the category, whose fresh fetch starts 100 ms later. -/
def switchDuringLoadMore : List Event :=
  firstPageLoaded ++
  [Event.loadMore, Event.clickCategory "bsa_iea", Event.fireLoadTimer]

/-- The fresh fetch of the new category resolves first, the older load-more
of the previous category afterwards. -/
def lateAppendRun : List Event :=
  switchDuringLoadMore ++
  [Event.settle 2 (Outcome.resolved (samplePage [sampleRecord 30] true)),
   Event.settle 1 (Outcome.resolved (samplePage [sampleRecord 3] true))]

/-- The older load-more resolves while the fresh fetch of the new category is
still in flight. -/
def flagsClearedRun : List Event :=
  switchDuringLoadMore ++
  [Event.settle 1 (Outcome.resolved (samplePage [sampleRecord 3] true))]

/-- After the first page a load-more fails. -/
def failedLoadMoreRun : List Event :=
  firstPageLoaded ++
  [Event.loadMore,
   Event.settle 1 (Outcome.rejected (Rejection.error "HTTP error! status: 500"))]

/-- Whether the settlement makes `fetchMappings` enter its `catch` block: the
remote call rejected, or it resolved with a value that is not an object. -/
def Outcome.isFailure : Outcome → Bool
  | .rejected _ => true
  | .resolved (.prim _) => true
  | .resolved _ => false

/-- The request a call of `fetchMappings` sends from state `s`. -/
def requestOf (s : State) (isLoadMore : Bool) (activeFilters : Filters) : Request :=
  { id := s.issuedCount
    isLoadMore := isLoadMore
    offset := if isLoadMore then s.offsetRef else 0
    limit := pageSize
    params := buildParams s.mappingType (if isLoadMore then s.offsetRef else 0) activeFilters }

/-- The part of the state that the ordering of requests depends on is the
same in both states. -/
def SameRequests (s t : State) : Prop :=
  t.inflight = s.inflight ∧ t.isFetchingRef = s.isFetchingRef ∧ t.log = s.log ∧
    t.issuedCount = s.issuedCount

/-- Invariant of the reachable states: at most one fresh fetch is in flight,
`isFetchingRef` is set while one is, request ids in the history are below the
counter, the fresh fetch in flight is the newest fresh fetch issued, and the
history shows fresh responses applied in the order of issue. -/
structure FetchInv (s : State) : Prop where
  freshLe : (freshInFlight s).length ≤ 1
  freshRef : freshInFlight s ≠ [] → s.isFetchingRef = true
  issuedLt : ∀ b k, Obs.issued b k ∈ s.log → b < s.issuedCount
  freshNewest : ∀ r ∈ s.inflight, r.isLoadMore = false →
    ∀ b, Obs.issued b false ∈ s.log → b ≤ r.id
  inOrder : FreshInOrder s.log

/-! ## Further properties and example runs -/

/-- The response carries the record list `p`: it is the bare array `p`, or an
object whose `data` is the array `p`. -/
def Resp.carries (data : Resp) (p : List Obj) : Prop :=
  data = Resp.array p ∨
    ∃ fields, data = Resp.object fields ∧ fields.lookup "data" = some (Val.array p)

/-- The three non-text values of both filter objects agree. -/
def sameNonText (f g : Filters) : Prop :=
  f.subject = g.subject ∧ f.source_section = g.source_section ∧
    f.target_section = g.target_section

/-- Invariant of the reachable states: the closure of a pending auto-apply
timer captured the non-text filter values that are current. -/
def DebounceInv (s : State) : Prop :=
  ∀ f, s.debounceTimer = some f → sameNonText f s.filters

/-- While a load-more is in flight the user switches the category; the
load-more fails while the fresh fetch of the new category is in flight, then
the fresh fetch resolves with one record. -/
def failureDuringFreshRun : List Event :=
  switchDuringLoadMore ++
  [Event.settle 1 (Outcome.rejected (Rejection.error "Network request failed")),
   Event.settle 2 (Outcome.resolved (samplePage [sampleRecord 30] true))]

/-- After the first page a load-more fails, the banner's Retry fails too, and
the scroll observer calls `loadMoreData`. -/
def staleRequestRun : List Event :=
  firstPageLoaded ++
  [Event.loadMore,
   Event.settle 1 (Outcome.rejected (Rejection.error "Network request failed")),
   Event.retryClick,
   Event.settle 2 (Outcome.rejected (Rejection.error "Network request failed")),
   Event.loadMore]

/-- A filter object whose only non-empty value is a single space. -/
def blankSubject : Filters :=
  { search := "", subject := " ", source_section := "", target_section := "" }

/-- While the mount's fresh fetch is in flight the user switches the
category; the fetch then resolves with one record. -/
def switchDuringFirstLoad : List Event :=
  [Event.fireLoadTimer, Event.clickCategory "bsa_iea",
   Event.settle 0 (Outcome.resolved (samplePage [sampleRecord 1] false))]

/-- After the first page a load-more is in flight when the user types `theft`
into the search box and presses Enter; the timer of `applyFilters` starts a
fresh fetch, the load-more resolves with an empty page, and the user clicks
"Clear All Filters" in the empty list while the fresh fetch is still in
flight. -/
def clearDuringFreshRun : List Event :=
  firstPageLoaded ++
  [Event.loadMore, Event.filterChange FilterName.search "theft", Event.applyFilters,
   Event.fireApplyTimer, Event.settle 1 (Outcome.resolved (samplePage [] true)),
   Event.clearFilters]

/-- The timer of `clearFilters` fires and the fresh fetch resolves. -/
def clearDroppedRun : List Event :=
  clearDuringFreshRun ++
  [Event.fireClearTimer,
   Event.settle 2 (Outcome.resolved (samplePage [sampleRecord 9] false))]

/-- After the first page a load-more is in flight when the user types `theft`
into the search box and presses Enter; the fresh fetch of `applyFilters`
starts, and the load-more resolves with one record before the fresh fetch
settles. -/
def lateRecordRun : List Event :=
  firstPageLoaded ++
  [Event.loadMore, Event.filterChange FilterName.search "theft", Event.applyFilters,
   Event.fireApplyTimer, Event.settle 1 (Outcome.resolved (samplePage [sampleRecord 3] true))]

/-- After the first page a load-more fails and the user clicks Retry in the
error banner. -/
def retryAfterFailedLoadMore : List Event :=
  failedLoadMoreRun ++ [Event.retryClick]

/-- While the mount's fresh fetch is in flight the subject is set to `theft`;
the fetch then resolves with two records. -/
def editDuringFirstLoad : List Event :=
  [Event.fireLoadTimer, Event.filterChange FilterName.subject "theft",
   Event.settle 0 (Outcome.resolved (samplePage [sampleRecord 1, sampleRecord 2] true))]

/-! ## Runs and data for the total count and the details page -/

/-- The mount's fresh fetch resolves with a bare array of two records. -/
def bareArrayRun : List Event :=
  [Event.fireLoadTimer,
   Event.settle 0 (Outcome.resolved (Resp.array [sampleRecord 1, sampleRecord 2]))]

/-- The navigation state that `viewMappingDetails` passes to the details
page: the record and the current mapping type. -/
structure DetailsLocationState where
  mapping : Obj
  mappingType : String
  deriving DecidableEq, Repr

/-- The navigation state built by `viewMappingDetails(mapping)`; the target is
`/mapping-details`. -/
def viewMappingDetails (s : State) (mapping : Obj) : DetailsLocationState :=
  { mapping := mapping, mappingType := s.mappingType }

end LawMapping

/-! ## MappingDetails.jsx -/

namespace MappingDetails

open LawMapping (Prim Obj isJsWhitespace DetailsLocationState)

/-- The string a template literal inserts for a primitive. -/
def toJsString : Prim → String
  | .undefined => "undefined"
  | .null => "null"
  | .bool b => if b then "true" else "false"
  | .num n => toString n
  | .str s => s

/-- The mount effect "Get mapping data from location state": the `mapping`
state afterwards, for the navigation state `st` (`none` when the page was
opened without one); an object is truthy, so a passed record is always taken.
Without a record the effect redirects to `/law-mapping` and `mapping` stays
null. -/
def mappingFromLocation (st : Option DetailsLocationState) : Option Obj :=
  match st with
  | some d => some d.mapping
  | none => none

/-- The function `getMappingType()`, for the `mapping` state. -/
def getMappingType (mapping : Option Obj) : Prim :=
  match mapping with
  | none => Prim.str "bns_ipc"
  | some m =>
    if (m.getProp "mapping_type").truthy then m.getProp "mapping_type"
    else if (m.getProp "ipc_section").truthy || (m.getProp "bns_section").truthy then
      Prim.str "bns_ipc"
    else if (m.getProp "iea_section").truthy || (m.getProp "bsa_section").truthy then
      Prim.str "bsa_iea"
    else if (m.getProp "crpc_section").truthy || (m.getProp "bnss_section").truthy then
      Prim.str "bnss_crpc"
    else Prim.str "bns_ipc"

/-- The target that `goBack()` navigates to. -/
def goBack (mapping : Option Obj) : String :=
  match mapping with
  | some _ => "/law-mapping?type=" ++ toJsString (getMappingType mapping)
  | none => "/law-mapping"

/-- A record of the evidence-law list that carries only the generic section
fields. -/
def genericRecord : Obj :=
  [("id", Prim.num 7), ("subject", Prim.str "Burden of proof"),
   ("source_section", Prim.str "101"), ("target_section", Prim.str "104")]

/-- The list is opened with `?type=bsa_iea` and its first page, holding
`genericRecord`, arrives. -/
def evidenceListLoaded : List LawMapping.Event :=
  [LawMapping.Event.fireLoadTimer,
   LawMapping.Event.settle 0
     (LawMapping.Outcome.resolved (LawMapping.samplePage [genericRecord] false))]

/-! ### The notes popup -/

/-- A position `{x, y}` in pixels. -/
structure Point where
  x : Int
  y : Int
  deriving DecidableEq, Repr

/-- A size `{width, height}` in pixels. -/
structure Size where
  width : Int
  height : Int
  deriving DecidableEq, Repr

/-- The `isDragging` branch of the popup's `onMouseMove`: the new
`popupPosition` for the viewport `innerWidth` by `innerHeight`, the states
`popupSize` and `dragOffset`, and the mouse position of the event. -/
def dragMove (innerWidth innerHeight : Int) (popupSize : Size) (dragOffset : Point)
    (clientX clientY : Int) : Point :=
  let newX := clientX - dragOffset.x
  let newY := clientY - dragOffset.y
  let maxX := innerWidth - popupSize.width
  let maxY := innerHeight - popupSize.height
  { x := max 0 (min newX maxX), y := max 0 (min newY maxY) }

/-- The initial `popupSize`. -/
def initialPopupSize : Size := { width := 500, height := 400 }

/-! ### Note titles -/

/-- The pieces of a character list between the occurrences of the line feed
(`split('\n')`); the empty list gives one empty piece. -/
def splitLines : List Char → List (List Char)
  | [] => [[]]
  | c :: cs =>
    if c = '\n' then [] :: splitLines cs
    else
      match splitLines cs with
      | [] => [[c]]
      | l :: ls => (c :: l) :: ls

/-- The method `String.prototype.split` with the separator `'\n'`. -/
def jsSplitLines (s : String) : List String :=
  (splitLines s.data).map String.mk

/-- The method `String.prototype.trim` on character lists. -/
def trimChars (l : List Char) : List Char :=
  (l.dropWhile isJsWhitespace).rdropWhile isJsWhitespace

/-- The method `String.prototype.trim`. -/
def jsTrim (s : String) : String :=
  String.mk (trimChars s.data)

/-- The test `line.trim().startsWith('#')`. -/
def isTitleLine (line : String) : Bool :=
  (jsTrim line).data.head? == some '#'

/-- The function `extractTitleOnly(content)`; `none` stands for a missing
(`undefined` or `null`) content. -/
def extractTitleOnly (content : Option String) : String :=
  match content with
  | none => ""
  | some c =>
    if c = "" then ""
    else
      let lines := jsSplitLines c
      let firstLine :=
        match lines.head? with
        | some l => jsTrim l
        | none => ""
      match lines.find? isTitleLine with
      | some titleLine => if titleLine != "" then jsTrim titleLine else firstLine
      | none => firstLine

/-- A notes folder `{id, name, content}`. -/
structure NoteFolder where
  id : String
  name : String
  content : Option String
  deriving DecidableEq, Repr

/-- The clean-up of the stored folders in the effect that loads the saved
notes: every folder keeps its other fields and gets the title as content. -/
def cleanFolders (parsedFolders : List NoteFolder) : List NoteFolder :=
  parsedFolders.map (fun folder => { folder with content := some (extractTitleOnly folder.content) })

end MappingDetails

/-! ## App.js -/

namespace App

/-- The list `hideFooterPaths` ("Pages where footer should be hidden"). -/
def hideFooterPaths : List String :=
  ["/", "/home", "/login", "/dashboard", "/profile", "/judgment-access", "/judgment", "/acts",
   "/mapping-details", "/law-library", "/legal-chatbot", "/law-mapping"]

/-- The method `String.prototype.startsWith`. -/
def jsStartsWith (s start : String) : Bool :=
  start.data.isPrefixOf s.data

/-- The value `shouldShowFooter` for `location.pathname`. -/
def shouldShowFooter (pathname : String) : Bool :=
  !hideFooterPaths.any (fun path => pathname == path || jsStartsWith pathname (path ++ "/"))

end App

/-! ## LegalChatbot.jsx -/

namespace LegalChatbot

open LawMapping (Prim Obj)

/-- A chat message; the three tool fields are `undefined` on messages created
without them. -/
structure Message where
  id : Int
  text : Prim
  sender : String
  timestamp : String
  usedTools : Prim
  toolUsed : Prim
  searchInfo : Prim
  deriving DecidableEq, Repr

/-- How the call `apiService.llmChat` ends: with a response object, or with a
rejection (or any other exception inside the `try` block). -/
inductive ChatOutcome where
  | resolved (response : Obj)
  | failed
  deriving DecidableEq, Repr

/-- The expression `a || b`. -/
def jsOr (a b : Prim) : Prim :=
  if a.truthy then a else b

/-- The part of `regenerate(messageId)` before the remote call: `none` when
the function returns early, otherwise the list passed to `setMessages` and the
text sent to the remote call. -/
def regenerateStart (messages : List Message) (messageId : Int) :
    Option (List Message × Prim) :=
  match messages.findIdx? (fun m => m.id == messageId) with
  | none => none
  | some botMessageIndex =>
    if botMessageIndex = 0 then none
    else
      match messages[botMessageIndex - 1]? with
      | none => none
      | some userMessage =>
        if userMessage.sender != "user" then none
        else some (messages.take botMessageIndex, userMessage.text)

/-- The message appended once the remote call has ended at time `now`
(`Date.now()`), with `iso` the value of `new Date().toISOString()`. -/
def regeneratedMessage (o : ChatOutcome) (now : Int) (iso : String) : Message :=
  match o with
  | .resolved response =>
    { id := now + 1
      text := jsOr (response.getProp "reply")
        (Prim.str "I'm sorry, I couldn't process your request. Please try again.")
      sender := "bot"
      timestamp := iso
      usedTools := jsOr (response.getProp "used_tools") (Prim.bool false)
      toolUsed := jsOr (response.getProp "tool_used") Prim.null
      searchInfo := jsOr (response.getProp "search_info") Prim.null }
  | .failed =>
    { id := now + 1
      text := Prim.str "I'm sorry, there was an error processing your message. Please try again."
      sender := "bot"
      timestamp := iso
      usedTools := Prim.undefined
      toolUsed := Prim.undefined
      searchInfo := Prim.undefined }

/-- The update `setMessages(prev => [...prev, message])` after the remote
call. -/
def regenerateFinish (prev : List Message) (o : ChatOutcome) (now : Int) (iso : String) :
    List Message :=
  prev ++ [regeneratedMessage o now iso]

/-- The messages once `regenerate(messageId)` has finished, when nothing else
changes the list while the remote call is pending. -/
def regenerate (messages : List Message) (messageId : Int) (o : ChatOutcome) (now : Int)
    (iso : String) : List Message :=
  match regenerateStart messages messageId with
  | none => messages
  | some (updatedMessages, _) => regenerateFinish updatedMessages o now iso

/-- A user message. -/
def userMsg (id : Int) (text : String) : Message :=
  { id := id, text := Prim.str text, sender := "user", timestamp := "2025-01-01T00:00:00.000Z",
    usedTools := Prim.undefined, toolUsed := Prim.undefined, searchInfo := Prim.undefined }

/-- A bot message. -/
def botMsg (id : Int) (text : String) : Message :=
  { id := id, text := Prim.str text, sender := "bot", timestamp := "2025-01-01T00:00:01.000Z",
    usedTools := Prim.bool false, toolUsed := Prim.null, searchInfo := Prim.null }

/-- A conversation of two questions and two answers. -/
def twoRounds : List Message :=
  [userMsg 10 "What is bail?", botMsg 11 "Bail is release pending trial.",
   userMsg 20 "Who grants it?", botMsg 21 "The court."]

end LegalChatbot

/-! ## Theorems -/

namespace LawMapping

/-! ### Basic facts -/

/-- Running tasks from a reachable state gives a reachable state. -/
theorem reachable_run {s : State} (hs : Reachable s) (es : List Event) :
    Reachable (run s es) := by
  induction es generalizing s with
  | nil => exact hs
  | cons e es ih => exact ih (Reachable.step e hs)

theorem finallyBlock_frame (s : State) (b : Bool) :
    (finallyBlock s b).mappings = s.mappings ∧ (finallyBlock s b).offset = s.offset ∧
    (finallyBlock s b).offsetRef = s.offsetRef ∧ (finallyBlock s b).error = s.error ∧
    (finallyBlock s b).hasMore = s.hasMore ∧ (finallyBlock s b).totalCount = s.totalCount ∧
    (finallyBlock s b).inflight = s.inflight ∧ (finallyBlock s b).log = s.log ∧
    (finallyBlock s b).issuedCount = s.issuedCount ∧ (finallyBlock s b).mounted = s.mounted := by
  unfold finallyBlock; split_ifs <;> simp

theorem finallyBlock_hasMore (s : State) (b : Bool) :
    (finallyBlock s b).hasMore = s.hasMore := (finallyBlock_frame s b).2.2.2.2.1

theorem finallyBlock_mappings (s : State) (b : Bool) :
    (finallyBlock s b).mappings = s.mappings := (finallyBlock_frame s b).1

theorem finallyBlock_error (s : State) (b : Bool) :
    (finallyBlock s b).error = s.error := (finallyBlock_frame s b).2.2.2.1

theorem finallyBlock_offset (s : State) (b : Bool) :
    (finallyBlock s b).offset = s.offset := (finallyBlock_frame s b).2.1

theorem fetchMappings_mappings (s : State) (b : Bool) (cf : Option Filters) :
    (fetchMappings s b cf).mappings = s.mappings := by
  unfold fetchMappings; split_ifs <;> rfl

theorem fetchMappings_offset (s : State) (b : Bool) (cf : Option Filters) :
    (fetchMappings s b cf).offset = s.offset := by
  unfold fetchMappings; split_ifs <;> rfl

theorem fetchMappings_offsetRef (s : State) (b : Bool) (cf : Option Filters) :
    (fetchMappings s b cf).offsetRef = s.offsetRef := by
  unfold fetchMappings; split_ifs <;> rfl

theorem fetchMappings_hasMore (s : State) (b : Bool) (cf : Option Filters) :
    (fetchMappings s b cf).hasMore = s.hasMore := by
  unfold fetchMappings; split_ifs <;> rfl

theorem fetchMappings_filters (s : State) (b : Bool) (cf : Option Filters) :
    (fetchMappings s b cf).filters = s.filters := by
  unfold fetchMappings; split_ifs <;> rfl

theorem fetchMappings_issue (s : State) (b : Bool) (cf : Option Filters)
    (hm : s.mounted = true) (hf : s.isFetchingRef = false ∨ b = true) :
    (fetchMappings s b cf).inflight = s.inflight ++ [requestOf s b (cf.getD s.filtersRef)] := by
  unfold fetchMappings requestOf
  rcases hf with hf | hf <;> simp [hm, hf]

theorem fetchMappings_loadMore_ne (s : State) (cf : Option Filters) (hm : s.mounted = true) :
    fetchMappings s true cf ≠ s := by
  intro h
  have h1 := congrArg (fun x => x.inflight.length) h
  simp [fetchMappings_issue s true cf hm (Or.inr rfl)] at h1

theorem debounceEffect_frame (prev : Filters) (s : State) :
    (debounceEffect prev s).mappings = s.mappings ∧
    (debounceEffect prev s).offset = s.offset ∧
    (debounceEffect prev s).offsetRef = s.offsetRef ∧
    (debounceEffect prev s).filters = s.filters ∧
    (debounceEffect prev s).filtersRef = s.filtersRef ∧
    (debounceEffect prev s).inflight = s.inflight := by
  unfold debounceEffect; split_ifs <;> simp

theorem handleFilterChange_flags (s : State) (name : FilterName) (value : String) :
    (handleFilterChange s name value).mounted = s.mounted ∧
    (handleFilterChange s name value).hasMore = s.hasMore ∧
    (handleFilterChange s name value).loading = s.loading ∧
    (handleFilterChange s name value).isSearching = s.isSearching ∧
    (handleFilterChange s name value).issuedCount = s.issuedCount ∧
    (handleFilterChange s name value).mappingType = s.mappingType ∧
    (handleFilterChange s name value).offsetRef = s.offsetRef ∧
    (handleFilterChange s name value).inflight = s.inflight ∧
    (handleFilterChange s name value).filtersRef = s.filters.set name value := by
  unfold handleFilterChange debounceEffect
  dsimp only
  split_ifs <;> simp

theorem loadEffect_resets (s : State) :
    (loadEffect s).mappings = [] ∧ (loadEffect s).offset = 0 ∧ (loadEffect s).offsetRef = 0 ∧
    (loadEffect s).inflight = s.inflight ∧ (loadEffect s).filters = s.filters := by
  unfold loadEffect; dsimp only; split_ifs <;> simp

theorem syncOffsetRef_mappings (s t : State) : (syncOffsetRef s t).mappings = t.mappings := by
  unfold syncOffsetRef; split_ifs <;> rfl

theorem syncOffsetRef_inflight (s t : State) : (syncOffsetRef s t).inflight = t.inflight := by
  unfold syncOffsetRef; split_ifs <;> rfl

theorem classifyError_ne_empty (msg : String) : classifyError msg ≠ "" := by
  unfold classifyError
  split_ifs with h1 h2 h3 h4 h5
  · decide
  · decide
  · decide
  · decide
  · simpa using h5
  · decide

theorem classifyError_invalid (p : Prim) :
    classifyError ("Invalid API response: Expected object but got " ++ p.typeofName) =
      "Invalid API response: Expected object but got " ++ p.typeofName := by
  cases p <;> simp only [Prim.typeofName] <;> decide

theorem catchBlock_mappings (s : State) (r : Request) (e : Rejection) :
    (catchBlock s r e).1.mappings = s.mappings ∨ (catchBlock s r e).1.mappings = [] := by
  unfold catchBlock
  by_cases hm : s.mounted = true
  · cases e <;> cases hl : r.isLoadMore <;> simp [hm, finallyBlock_mappings]
  · simp only [Bool.not_eq_true] at hm
    simp [hm, finallyBlock_mappings]

theorem failure_mappings (s : State) (r : Request) (o : Outcome) (ho : o.isFailure = true) :
    (fetchMappingsSettle s r o).1.mappings = s.mappings ∨
      (fetchMappingsSettle s r o).1.mappings = [] := by
  cases o with
  | rejected e => exact catchBlock_mappings s r e
  | resolved data =>
    cases data with
    | prim p => exact catchBlock_mappings s r _
    | array xs => simp [Outcome.isFailure] at ho
    | object fields => simp [Outcome.isFailure] at ho

theorem settle_failure_mappings (s : State) (id : Nat) (o : Outcome) (ho : o.isFailure = true)
    (h : s.mappings = []) : (step s (Event.settle id o)).mappings = [] := by
  unfold step
  rw [syncOffsetRef_mappings]
  simp only [stepCore]
  unfold settle
  split
  · exact h
  · rename_i r _
    rcases failure_mappings { s with inflight := s.inflight.filter (fun q => q.id != id) } r o ho
      with h1 | h1
    · rw [h1]; exact h
    · exact h1

theorem step_fireApplyTimer (s : State) (hm : s.mounted = true) (hf : s.isFetchingRef = false)
    (ht : 0 < s.applyTimers) :
    (step s Event.fireApplyTimer).mappings = s.mappings ∧
    (step s Event.fireApplyTimer).inflight =
      s.inflight ++
        [{ id := s.issuedCount, isLoadMore := false, offset := 0, limit := pageSize,
           params := buildParams s.mappingType 0 s.filtersRef }] := by
  unfold step
  rw [syncOffsetRef_mappings, syncOffsetRef_inflight]
  simp only [stepCore, ht, if_true, applyFiltersTimer]
  refine ⟨by rw [fetchMappings_mappings], ?_⟩
  rw [fetchMappings_issue _ false _ (by exact hm) (Or.inl (by exact hf))]
  simp [requestOf]

theorem mappingsArrayOf_unrecognized (fields : List (String × Val))
    (hshape : ∀ xs, fields.lookup "data" ≠ some (Val.array xs)) :
    mappingsArrayOf (Resp.object fields) = [] := by
  unfold mappingsArrayOf Resp.getProp
  cases h : fields.lookup "data" with
  | none => simp [h]
  | some v =>
    cases v with
    | prim p => simp [h]
    | array xs => exact absurd h (hshape xs)
    | object o => simp [h]

/-- The failure of a load-more never changes the list, and in the mounted view a failure that
carries a message sets `error` to the classified message. -/
theorem loadMore_failure_keeps_list (s : State) (r : Request) (o : Outcome) (msg : String)
    (hr : r.isLoadMore = true) (ho : o.isFailure = true) :
    (fetchMappingsSettle s r o).1.mappings = s.mappings ∧
    (s.mounted = true →
      (fetchMappingsSettle s r (Outcome.rejected (Rejection.error msg))).1.error =
        some (classifyError msg)) := by
  constructor
  · have hc : ∀ e, (catchBlock s r e).1.mappings = s.mappings := by
      intro e
      unfold catchBlock
      by_cases hm : s.mounted = true
      · cases e <;> simp [hm, hr, finallyBlock_mappings]
      · simp only [Bool.not_eq_true] at hm
        simp [hm, finallyBlock_mappings]
    cases o with
    | rejected e => exact hc e
    | resolved data =>
      cases data with
      | prim p => exact hc _
      | array xs => simp [Outcome.isFailure] at ho
      | object fields => simp [Outcome.isFailure] at ho
  · intro hm
    simp [fetchMappingsSettle, catchBlock, hm, finallyBlock_error]

/-! ### The invariant of reachable states -/

theorem SameRequests.refl (s : State) : SameRequests s s := ⟨rfl, rfl, rfl, rfl⟩

theorem SameRequests.trans {s t u : State} (h1 : SameRequests s t) (h2 : SameRequests t u) :
    SameRequests s u :=
  ⟨h2.1.trans h1.1, h2.2.1.trans h1.2.1, h2.2.2.1.trans h1.2.2.1, h2.2.2.2.trans h1.2.2.2⟩

theorem FetchInv.of_same {s t : State} (h : SameRequests s t) (hs : FetchInv s) : FetchInv t := by
  obtain ⟨h1, h2, h3, h4⟩ := h
  have hf : freshInFlight t = freshInFlight s := by unfold freshInFlight; rw [h1]
  exact
    { freshLe := by rw [hf]; exact hs.freshLe
      freshRef := by rw [hf, h2]; exact hs.freshRef
      issuedLt := by rw [h3, h4]; exact hs.issuedLt
      freshNewest := by rw [h1, h3]; exact hs.freshNewest
      inOrder := by rw [h3]; exact hs.inOrder }

theorem debounceEffect_same (prev : Filters) (s : State) : SameRequests s (debounceEffect prev s) := by
  unfold debounceEffect SameRequests; split_ifs <;> simp

theorem loadEffect_same (s : State) : SameRequests s (loadEffect s) := by
  unfold loadEffect SameRequests; dsimp only; split_ifs <;> simp

theorem setMappingType_same (s : State) (t : String) : SameRequests s (setMappingType s t) := by
  unfold setMappingType
  split_ifs
  · exact SameRequests.refl s
  · refine SameRequests.trans ?_ (debounceEffect_same _ _)
    have h := loadEffect_same (resetEffect { s with mappingType := t })
    obtain ⟨h1, h2, h3, h4⟩ := h
    exact ⟨h1, h2, h3, h4⟩

theorem urlSyncEffect_same (s : State) (p : Option String) : SameRequests s (urlSyncEffect s p) := by
  unfold urlSyncEffect
  split
  · split_ifs
    · exact setMappingType_same s _
    · exact SameRequests.refl s
  · exact SameRequests.refl s

theorem handleFilterChange_same (s : State) (n : FilterName) (v : String) :
    SameRequests s (handleFilterChange s n v) := by
  unfold handleFilterChange
  exact SameRequests.trans ⟨rfl, rfl, rfl, rfl⟩ (debounceEffect_same _ _)

theorem clearFilters_same (s : State) : SameRequests s (clearFilters s) := by
  unfold clearFilters
  exact SameRequests.trans ⟨rfl, rfl, rfl, rfl⟩ (debounceEffect_same _ _)

theorem applyFilters_same (s : State) : SameRequests s (applyFilters s) := by
  unfold applyFilters SameRequests; split_ifs <;> simp

theorem syncOffsetRef_same (s t : State) : SameRequests t (syncOffsetRef s t) := by
  unfold syncOffsetRef SameRequests; split_ifs <;> simp

theorem FreshInOrder.append_one {log : List Obs} {x : Obs} (h : FreshInOrder log)
    (hx : ∀ a, x = Obs.applied a false → ∀ b, Obs.issued b false ∈ log → b ≤ a) :
    FreshInOrder (log ++ [x]) := by
  intro j k a b hjk hj hk
  by_cases hk' : k < log.length
  · rw [List.getElem?_append_left hk'] at hk
    rw [List.getElem?_append_left (lt_trans hjk hk')] at hj
    exact h j k a b hjk hj hk
  · have hlen : k < (log ++ [x]).length := by
      obtain ⟨hlt, _⟩ := List.getElem?_eq_some.mp hk
      exact hlt
    simp only [List.length_append, List.length_singleton] at hlen
    have hkeq : k = log.length := by omega
    subst hkeq
    rw [List.getElem?_append_right (le_refl _)] at hk
    simp only [Nat.sub_self, List.getElem?_cons_zero, Option.some.injEq] at hk
    rw [List.getElem?_append_left hjk] at hj
    exact hx a hk b (List.mem_iff_getElem?.mpr ⟨j, hj⟩)

theorem fetchMappings_cases (s : State) (b : Bool) (cf : Option Filters) :
    fetchMappings s b cf = s ∨
    ((b = false → s.isFetchingRef = false) ∧
      (fetchMappings s b cf).inflight = s.inflight ++ [requestOf s b (cf.getD s.filtersRef)] ∧
      (fetchMappings s b cf).log = s.log ++ [Obs.issued s.issuedCount b] ∧
      (fetchMappings s b cf).issuedCount = s.issuedCount + 1 ∧
      (fetchMappings s b cf).isFetchingRef = (if b then s.isFetchingRef else true)) := by
  unfold fetchMappings requestOf
  by_cases h1 : s.mounted = true
  · by_cases h2 : s.isFetchingRef = true
    · cases b <;> simp [h1, h2]
    · simp only [Bool.not_eq_true] at h2
      cases b <;> simp [h1, h2]
  · simp only [Bool.not_eq_true] at h1
    simp [h1]

theorem FetchInv.issue {s t : State} (hs : FetchInv s) (b : Bool) (req : Request)
    (hid : req.id = s.issuedCount) (hkind : req.isLoadMore = b)
    (hguard : b = false → s.isFetchingRef = false)
    (hin : t.inflight = s.inflight ++ [req])
    (hlog : t.log = s.log ++ [Obs.issued s.issuedCount b])
    (hcnt : t.issuedCount = s.issuedCount + 1)
    (href : t.isFetchingRef = (if b then s.isFetchingRef else true)) : FetchInv t := by
  have hissued : ∀ c k, Obs.issued c k ∈ t.log → c < t.issuedCount := by
    intro c k hc
    rw [hlog] at hc
    rw [hcnt]
    simp only [List.mem_append, List.mem_singleton] at hc
    rcases hc with hc | hc
    · exact Nat.lt_succ_of_lt (hs.issuedLt c k hc)
    · cases hc; exact Nat.lt_succ_self _
  have horder : FreshInOrder t.log := by
    rw [hlog]
    exact FreshInOrder.append_one hs.inOrder (by intro a ha; cases ha)
  cases b with
  | true =>
    have hf : freshInFlight t = freshInFlight s := by
      unfold freshInFlight
      rw [hin, List.filter_append]
      simp [hkind]
    exact
      { freshLe := by rw [hf]; exact hs.freshLe
        freshRef := by rw [hf, href]; exact hs.freshRef
        issuedLt := hissued
        freshNewest := by
          intro r hr hrf c hc
          rw [hin] at hr
          rw [hlog] at hc
          simp only [List.mem_append, List.mem_singleton] at hr hc
          rcases hc with hc | hc
          · rcases hr with hr | hr
            · exact hs.freshNewest r hr hrf c hc
            · subst hr; rw [hkind] at hrf; exact Bool.noConfusion hrf
          · cases hc
        inOrder := horder }
  | false =>
    have h2 := hguard rfl
    have hnil : freshInFlight s = [] := by
      by_contra hne
      have := hs.freshRef hne
      rw [h2] at this
      exact Bool.noConfusion this
    have hold : ∀ r ∈ s.inflight, r.isLoadMore = true := by
      intro r hr
      unfold freshInFlight at hnil
      rw [List.filter_eq_nil_iff] at hnil
      have := hnil r hr
      simpa using this
    have hf : freshInFlight t = [req] := by
      have h0 : List.filter (fun r => !r.isLoadMore) s.inflight = [] := hnil
      unfold freshInFlight
      rw [hin, List.filter_append, h0]
      simp [hkind]
    exact
      { freshLe := by rw [hf]; simp
        freshRef := by intro _; rw [href]; rfl
        issuedLt := hissued
        freshNewest := by
          intro r hr hrf c hc
          rw [hin] at hr
          rw [hlog] at hc
          simp only [List.mem_append, List.mem_singleton] at hr hc
          rcases hr with hr | hr
          · rw [hold r hr] at hrf; exact Bool.noConfusion hrf
          · subst hr
            rw [hid]
            rcases hc with hc | hc
            · exact Nat.le_of_lt (hs.issuedLt c false hc)
            · cases hc; exact le_refl _
        inOrder := horder }

theorem fetchMappings_inv (s : State) (b : Bool) (cf : Option Filters) (hs : FetchInv s) :
    FetchInv (fetchMappings s b cf) := by
  rcases fetchMappings_cases s b cf with h | ⟨hg, hin, hlog, hcnt, href⟩
  · rw [h]; exact hs
  · exact FetchInv.issue hs b (requestOf s b (cf.getD s.filtersRef)) rfl rfl hg hin hlog hcnt href

theorem catchBlock_cases (s : State) (r : Request) (e : Rejection) :
    (catchBlock s r e).1.inflight = s.inflight ∧
    (catchBlock s r e).1.issuedCount = s.issuedCount ∧
    ((catchBlock s r e).1.log = s.log ∨
      (catchBlock s r e).1.log = s.log ++ [Obs.failed r.id r.isLoadMore]) ∧
    (r.isLoadMore = true → (catchBlock s r e).1.isFetchingRef = s.isFetchingRef) := by
  unfold catchBlock finallyBlock
  by_cases hm : s.mounted = true
  · cases e <;> cases hl : r.isLoadMore <;> simp [hm]
  · simp only [Bool.not_eq_true] at hm
    simp [hm]

theorem fetchMappingsSettle_cases (s : State) (r : Request) (o : Outcome) :
    (fetchMappingsSettle s r o).1.inflight = s.inflight ∧
    (fetchMappingsSettle s r o).1.issuedCount = s.issuedCount ∧
    ((fetchMappingsSettle s r o).1.log = s.log ∨
      (fetchMappingsSettle s r o).1.log = s.log ++ [Obs.applied r.id r.isLoadMore] ∨
      (fetchMappingsSettle s r o).1.log = s.log ++ [Obs.failed r.id r.isLoadMore]) ∧
    (r.isLoadMore = true → (fetchMappingsSettle s r o).1.isFetchingRef = s.isFetchingRef) := by
  have hc : ∀ e, (catchBlock s r e).1.inflight = s.inflight ∧
      (catchBlock s r e).1.issuedCount = s.issuedCount ∧
      ((catchBlock s r e).1.log = s.log ∨
        (catchBlock s r e).1.log = s.log ++ [Obs.applied r.id r.isLoadMore] ∨
        (catchBlock s r e).1.log = s.log ++ [Obs.failed r.id r.isLoadMore]) ∧
      (r.isLoadMore = true → (catchBlock s r e).1.isFetchingRef = s.isFetchingRef) := by
    intro e
    obtain ⟨h1, h2, h3, h4⟩ := catchBlock_cases s r e
    exact ⟨h1, h2, h3.elim Or.inl (fun h => Or.inr (Or.inr h)), h4⟩
  cases o with
  | rejected e => exact hc e
  | resolved data =>
    cases data with
    | prim p => exact hc _
    | array xs =>
      unfold fetchMappingsSettle onResolved finallyBlock
      by_cases hm : s.mounted = true
      · cases hl : r.isLoadMore <;> simp [hm]
      · simp only [Bool.not_eq_true] at hm
        simp [hm]
    | object fields =>
      unfold fetchMappingsSettle onResolved finallyBlock
      by_cases hm : s.mounted = true
      · cases hl : r.isLoadMore <;> simp [hm]
      · simp only [Bool.not_eq_true] at hm
        simp [hm]

theorem FetchInv.settled {s t : State} (hs : FetchInv s) (r : Request) (hr : r ∈ s.inflight)
    (hin : t.inflight = s.inflight.filter (fun q => q.id != r.id))
    (hcnt : t.issuedCount = s.issuedCount)
    (hlog : t.log = s.log ∨ t.log = s.log ++ [Obs.applied r.id r.isLoadMore] ∨
      t.log = s.log ++ [Obs.failed r.id r.isLoadMore])
    (href : r.isLoadMore = true → t.isFetchingRef = s.isFetchingRef) : FetchInv t := by
  have hsub : ∀ q, q ∈ t.inflight → q ∈ s.inflight ∧ q.id ≠ r.id := by
    intro q hq
    rw [hin, List.mem_filter] at hq
    exact ⟨hq.1, by simpa using hq.2⟩
  have hmemlog : ∀ c k, Obs.issued c k ∈ t.log → Obs.issued c k ∈ s.log := by
    intro c k hc
    rcases hlog with h | h | h
    · rwa [h] at hc
    · rw [h] at hc
      simp only [List.mem_append, List.mem_singleton] at hc
      rcases hc with hc | hc
      · exact hc
      · cases hc
    · rw [h] at hc
      simp only [List.mem_append, List.mem_singleton] at hc
      rcases hc with hc | hc
      · exact hc
      · cases hc
  have hfsub : ∀ q, q ∈ freshInFlight t → q ∈ freshInFlight s ∧ q.id ≠ r.id := by
    intro q hq
    unfold freshInFlight at hq ⊢
    rw [List.mem_filter] at hq ⊢
    exact ⟨⟨(hsub q hq.1).1, hq.2⟩, (hsub q hq.1).2⟩
  have hle : (freshInFlight t).length ≤ (freshInFlight s).length := by
    unfold freshInFlight
    rw [hin]
    exact ((List.filter_sublist _).filter _).length_le
  exact
    { freshLe := le_trans hle hs.freshLe
      freshRef := by
        intro hne
        cases hk : r.isLoadMore with
        | true =>
          rw [href hk]
          apply hs.freshRef
          intro hnil
          obtain ⟨q, hq⟩ := List.exists_mem_of_ne_nil _ hne
          have := (hfsub q hq).1
          rw [hnil] at this
          exact List.not_mem_nil _ this
        | false =>
          exfalso
          obtain ⟨q, hq⟩ := List.exists_mem_of_ne_nil _ hne
          have hq1 := (hfsub q hq).1
          have hq2 := (hfsub q hq).2
          have hrf : r ∈ freshInFlight s := by
            unfold freshInFlight
            rw [List.mem_filter]
            exact ⟨hr, by simp [hk]⟩
          have hlen := hs.freshLe
          match hfs : freshInFlight s, hlen, hq1, hrf with
          | [], _, h1, _ => rw [hfs] at hq1; exact List.not_mem_nil _ hq1
          | [a], _, h1, h2 =>
            rw [hfs] at hq1 hrf
            simp only [List.mem_singleton] at hq1 hrf
            exact hq2 (by rw [hq1, hrf])
          | a :: b :: l, h0, _, _ =>
            rw [hfs] at hlen
            simp at hlen
      issuedLt := by
        intro c k hc
        rw [hcnt]
        exact hs.issuedLt c k (hmemlog c k hc)
      freshNewest := by
        intro q hq hqf c hc
        exact hs.freshNewest q (hsub q hq).1 hqf c (hmemlog c false hc)
      inOrder := by
        rcases hlog with h | h | h
        · rw [h]; exact hs.inOrder
        · rw [h]
          apply FreshInOrder.append_one hs.inOrder
          intro a ha c hc
          injection ha with h1 h2
          rw [← h1]
          exact hs.freshNewest r hr h2 c hc
        · rw [h]
          exact FreshInOrder.append_one hs.inOrder (by intro a ha; cases ha) }

theorem settle_inv (s : State) (id : Nat) (o : Outcome) (hs : FetchInv s) :
    FetchInv (settle s id o) := by
  unfold settle
  split
  · exact hs
  · rename_i r hfind
    have hr : r ∈ s.inflight := List.mem_of_find?_eq_some hfind
    have hid : r.id = id := by
      have := List.find?_some hfind
      simpa using this
    obtain ⟨h1, h2, h3, h4⟩ :=
      fetchMappingsSettle_cases { s with inflight := s.inflight.filter (fun q => q.id != id) } r o
    exact FetchInv.settled hs r hr (by rw [h1, hid]) h2 h3 h4

theorem mount_inv (p : Option String) : FetchInv (mount p) :=
  { freshLe := by simp [mount, loadEffect, resetEffect, initialRender, freshInFlight]
    freshRef := by simp [mount, loadEffect, resetEffect, initialRender, freshInFlight]
    issuedLt := by simp [mount, loadEffect, resetEffect, initialRender]
    freshNewest := by simp [mount, loadEffect, resetEffect, initialRender]
    inOrder := by
      intro j k a b _ hj _
      simp [mount, loadEffect, resetEffect, initialRender] at hj }

theorem stepCore_inv (s : State) (e : Event) (hs : FetchInv s) : FetchInv (stepCore s e) := by
  have same : ∀ {t : State}, SameRequests s t → FetchInv t := fun h => FetchInv.of_same h hs
  cases e with
  | urlChange p =>
    simp only [stepCore]; split_ifs
    · exact same (urlSyncEffect_same s p)
    · exact hs
  | clickCategory t =>
    simp only [stepCore]; split_ifs
    · exact same (setMappingType_same s t)
    · exact hs
  | filterChange n v =>
    simp only [stepCore]; split_ifs
    · exact same (handleFilterChange_same s n v)
    · exact hs
  | applyFilters =>
    simp only [stepCore]; split_ifs
    · exact same (applyFilters_same s)
    · exact hs
  | clearFilters =>
    simp only [stepCore]; split_ifs
    · exact same (clearFilters_same s)
    · exact hs
  | loadMore =>
    simp only [stepCore]; unfold loadMoreData; split_ifs
    · exact hs
    · exact fetchMappings_inv s true none hs
  | retryClick =>
    simp only [stepCore]; unfold retryClick; split_ifs
    · exact fetchMappings_inv _ false none (same ⟨rfl, rfl, rfl, rfl⟩)
    · exact hs
  | fireLoadTimer =>
    simp only [stepCore]
    split
    · rename_i t _
      unfold loadTimerCallback
      cases t with
      | initial =>
        dsimp only
        split_ifs
        · exact fetchMappings_inv _ false none (same ⟨rfl, rfl, rfl, rfl⟩)
        · exact same ⟨rfl, rfl, rfl, rfl⟩
      | changed => exact fetchMappings_inv _ false none (same ⟨rfl, rfl, rfl, rfl⟩)
    · exact hs
  | fireDebounce =>
    simp only [stepCore]
    split
    · unfold debounceCallback
      split_ifs
      · exact fetchMappings_inv _ false _ (same ⟨rfl, rfl, rfl, rfl⟩)
      · exact same ⟨rfl, rfl, rfl, rfl⟩
    · exact hs
  | fireApplyTimer =>
    simp only [stepCore]; unfold applyFiltersTimer; split_ifs
    · exact fetchMappings_inv _ false _ (same ⟨rfl, rfl, rfl, rfl⟩)
    · exact hs
  | fireClearTimer =>
    simp only [stepCore]; unfold clearFiltersTimer; split_ifs
    · exact fetchMappings_inv _ false _ (same ⟨rfl, rfl, rfl, rfl⟩)
    · exact hs
  | settle id o => simp only [stepCore]; exact settle_inv s id o hs
  | unmount =>
    simp only [stepCore]; unfold unmount; split_ifs
    · exact same ⟨rfl, rfl, rfl, rfl⟩
    · exact hs

/-- Every reachable state satisfies the invariant. -/
theorem reachable_inv {s : State} (hs : Reachable s) : FetchInv s := by
  induction hs with
  | mount p => exact mount_inv p
  | step e _ ih => exact FetchInv.of_same (syncOffsetRef_same _ _) (stepCore_inv _ e ih)

/-! ### The list and its offset -/

/-- C1: the run `staleOffsetRun` is possible on the rendered page, its last
step is the completion of a successful load-more, and afterwards the list
holds one record while `offset` is three: `mappings.length == offset` fails
after a successful load-more. -/
theorem staleOffsetRun_length_ne_offset :
    runUI (mount none) staleOffsetRun = some (run (mount none) staleOffsetRun) ∧
    (run (mount none) staleOffsetRun).log.getLast? = some (Obs.applied 3 true) ∧
    (run (mount none) staleOffsetRun).mappings.length = 1 ∧
    (run (mount none) staleOffsetRun).offset = 3 ∧
    (run (mount none) staleOffsetRun).mappings.length ≠
      (run (mount none) staleOffsetRun).offset := by
  decide

/-- C2 as stated fails: in `unappliedSearchRun` the load-more request is sent
with the edited search text `theft` at offset 2 while the list still holds the
two records fetched without that filter, and `offset` is still 2. -/
theorem unappliedSearchRun_mixes_filters :
    runUI (mount none) unappliedSearchRun = some (run (mount none) unappliedSearchRun) ∧
    (run (mount none) unappliedSearchRun).inflight =
      [{ id := 1, isLoadMore := true, offset := 2, limit := 50,
         params := [("limit", Prim.num 50), ("offset", Prim.num 2),
                    ("mapping_type", Prim.str "bns_ipc"), ("search", Prim.str "theft")] }] ∧
    (run (mount none) firstPageLoaded).inflight = [] ∧
    (run (mount none) firstPageLoaded).filtersRef = emptyFilters ∧
    (run (mount none) unappliedSearchRun).mappings = [sampleRecord 1, sampleRecord 2] ∧
    (run (mount none) unappliedSearchRun).offset = 2 := by
  decide

/-- C2 (amended): a change of category, `clearFilters`, `applyFilters` (when
no fresh fetch is in flight) and the auto-apply timer (when it fetches) clear
the list and reset `offset` and `offsetRef` to 0, and none of them has sent a
request by then except the timer, whose request is built after the reset. An
edit of a filter value changes `filters` and `filtersRef` only: the list,
`offset` and `offsetRef` stay as they are and no request is sent, so that a
load-more called right after the edit is sent with the edited filters at the
old offset. -/
theorem query_change_resets (s : State) (t : String) (name : FilterName) (value : String)
    (captured : Filters) (ht : t ≠ s.mappingType) :
    ((setMappingType s t).mappings = [] ∧ (setMappingType s t).offset = 0 ∧
      (setMappingType s t).offsetRef = 0 ∧ (setMappingType s t).inflight = s.inflight) ∧
    ((clearFilters s).mappings = [] ∧ (clearFilters s).offset = 0 ∧
      (clearFilters s).offsetRef = 0 ∧ (clearFilters s).inflight = s.inflight) ∧
    ((applyFilters s).mappings = (if s.isFetchingRef then s.mappings else []) ∧
      (applyFilters s).offset = (if s.isFetchingRef then s.offset else 0) ∧
      (applyFilters s).offsetRef = (if s.isFetchingRef then s.offsetRef else 0) ∧
      (applyFilters s).inflight = s.inflight) ∧
    ((debounceCallback s captured).mappings =
        (if hasActiveFilters captured && !s.isFetchingRef then [] else s.mappings) ∧
      (debounceCallback s captured).offset =
        (if hasActiveFilters captured && !s.isFetchingRef then 0 else s.offset) ∧
      (debounceCallback s captured).offsetRef =
        (if hasActiveFilters captured && !s.isFetchingRef then 0 else s.offsetRef)) ∧
    ((handleFilterChange s name value).mappings = s.mappings ∧
      (handleFilterChange s name value).offset = s.offset ∧
      (handleFilterChange s name value).offsetRef = s.offsetRef ∧
      (handleFilterChange s name value).inflight = s.inflight ∧
      (handleFilterChange s name value).filters = s.filters.set name value ∧
      (handleFilterChange s name value).filtersRef = s.filters.set name value) ∧
    (s.mounted = true → s.hasMore = true → s.loading = false → s.isSearching = false →
      (loadMoreData (handleFilterChange s name value)).inflight =
        s.inflight ++
          [{ id := s.issuedCount, isLoadMore := true, offset := s.offsetRef, limit := pageSize,
             params := buildParams s.mappingType s.offsetRef (s.filters.set name value) }]) := by
  refine ⟨?_, ?_, ?_, ?_, ?_, ?_⟩
  · unfold setMappingType
    rw [if_neg ht]
    simp only [(debounceEffect_frame _ _).1, (debounceEffect_frame _ _).2.1,
      (debounceEffect_frame _ _).2.2.1, (debounceEffect_frame _ _).2.2.2.2.2]
    have h := loadEffect_resets (resetEffect { s with mappingType := t })
    exact ⟨h.1, h.2.1, h.2.2.1, by rw [h.2.2.2.1]; rfl⟩
  · unfold clearFilters
    simp [(debounceEffect_frame _ _).1, (debounceEffect_frame _ _).2.1,
      (debounceEffect_frame _ _).2.2.1, (debounceEffect_frame _ _).2.2.2.2.2]
  · unfold applyFilters
    split_ifs <;> simp
  · unfold debounceCallback
    split_ifs <;> simp [fetchMappings_mappings, fetchMappings_offset, fetchMappings_offsetRef]
  · unfold handleFilterChange
    simp [(debounceEffect_frame _ _).1, (debounceEffect_frame _ _).2.1,
      (debounceEffect_frame _ _).2.2.1, (debounceEffect_frame _ _).2.2.2.1,
      (debounceEffect_frame _ _).2.2.2.2.1, (debounceEffect_frame _ _).2.2.2.2.2]
  · intro hm hh hl hq
    have hfr := handleFilterChange_flags s name value
    obtain ⟨f1, f2, f3, f4, f5, f6, f7, f8, f9⟩ := hfr
    have hlm : loadMoreData (handleFilterChange s name value) =
        fetchMappings (handleFilterChange s name value) true none := by
      unfold loadMoreData
      simp [f1, f2, f3, f4, hm, hh, hl, hq]
    rw [hlm, fetchMappings_issue _ true none (by rw [f1]; exact hm) (Or.inr rfl)]
    simp [requestOf, f5, f6, f7, f8, f9]

/-- An instance: switching the category after the first page empties the list, and typing
into the search box leaves it as it is. -/
theorem query_change_resets_witness :
    ("bsa_iea" ≠ (run (mount none) firstPageLoaded).mappingType) ∧
    (setMappingType (run (mount none) firstPageLoaded) "bsa_iea").mappings = [] ∧
    (handleFilterChange (run (mount none) firstPageLoaded) FilterName.search "theft").mappings =
      (run (mount none) firstPageLoaded).mappings :=
  ⟨by decide,
   (query_change_resets (run (mount none) firstPageLoaded) "bsa_iea" FilterName.search "theft"
      emptyFilters (by decide)).1.1,
   (query_change_resets (run (mount none) firstPageLoaded) "bsa_iea" FilterName.search "theft"
      emptyFilters (by decide)).2.2.2.2.1.1⟩

/-! ### Ordering of requests and responses -/

/-- C3 as stated fails: in `lateAppendRun` the load-more request 1 is issued
before the fresh fetch 2, and its response is appended after the response of
the fresh fetch was applied; the list of the new category ends with the
record of the old one. -/
theorem lateAppendRun_appends_out_of_order :
    runUI (mount none) lateAppendRun = some (run (mount none) lateAppendRun) ∧
    (run (mount none) lateAppendRun).log =
      [Obs.issued 0 false, Obs.applied 0 false, Obs.issued 1 true, Obs.issued 2 false,
       Obs.applied 2 false, Obs.applied 1 true] ∧
    (run (mount none) lateAppendRun).mappings = [sampleRecord 30, sampleRecord 3] ∧
    ¬ NoLateAppend (run (mount none) lateAppendRun).log := by
  refine ⟨by decide, by decide, by decide, ?_⟩
  intro h
  exact h 2 3 5 1 2 (by decide) (by decide) (by decide) (by decide) (by decide)

/-- C3 (amended): in every reachable state the history shows the responses
of fresh fetches applied in the order of issue (once a fresh fetch has been
issued, no response of an earlier fresh fetch is applied), at most one fresh
fetch is in flight, and `loadMoreData` sends a request only while `loading`
and `isSearching` are false and `hasMore` is true. -/
theorem fresh_responses_in_issue_order (s : State) (hs : Reachable s) :
    FreshInOrder s.log ∧ (freshInFlight s).length ≤ 1 ∧
    (loadMoreData s ≠ s → s.loading = false ∧ s.isSearching = false ∧ s.hasMore = true) := by
  have inv := reachable_inv hs
  refine ⟨inv.inOrder, inv.freshLe, fun hne => ?_⟩
  by_contra hc
  apply hne
  unfold loadMoreData
  cases h1 : s.loading <;> cases h2 : s.isSearching <;> cases h3 : s.hasMore <;>
    simp_all

/-- An instance: the history of the run with the late append still shows the fresh
responses in the order of issue. -/
theorem fresh_responses_in_issue_order_witness :
    FreshInOrder (run (mount none) lateAppendRun).log ∧
    (freshInFlight (run (mount none) lateAppendRun)).length ≤ 1 :=
  ⟨(fresh_responses_in_issue_order (run (mount none) lateAppendRun)
      (reachable_run (Reachable.mount none) lateAppendRun)).1,
   (fresh_responses_in_issue_order (run (mount none) lateAppendRun)
      (reachable_run (Reachable.mount none) lateAppendRun)).2.1⟩

/-- C4 as stated fails: after `flagsClearedRun` the fresh fetch 2 is still in
flight, yet `loadMoreData` is not a no-op: it issues the load-more request 3. -/
theorem flagsClearedRun_loadMore_during_fresh :
    runUI (mount none) flagsClearedRun = some (run (mount none) flagsClearedRun) ∧
    (run (mount none) flagsClearedRun).inflight.map (fun r => (r.id, r.isLoadMore)) =
      [(2, false)] ∧
    uiEnabled (run (mount none) flagsClearedRun) Event.loadMore = true ∧
    (loadMoreData (run (mount none) flagsClearedRun)).inflight.map
      (fun r => (r.id, r.isLoadMore)) = [(2, false), (3, true)] ∧
    loadMoreData (run (mount none) flagsClearedRun) ≠ run (mount none) flagsClearedRun := by
  decide

/-- C4 (amended): `loadMoreData` is a no-op exactly when `hasMore` is false,
or `loading` or `isSearching` is true, or the view is unmounted; it looks at
these flags and not at the requests in flight.  After a response whose
`pagination_info.has_more` is `false`, `hasMore` is false and `loadMoreData`
is a no-op in the state that results. -/
theorem loadMoreData_gate (s : State) (r : Request) (data : Resp) :
    (loadMoreData s = s ↔
      (s.hasMore = false ∨ s.loading = true ∨ s.isSearching = true ∨ s.mounted = false)) ∧
    (s.mounted = true → (∀ p, data ≠ Resp.prim p) →
      (paginationInfoOf data).getProp "has_more" = Prim.bool false →
      (fetchMappingsSettle s r (Outcome.resolved data)).1.hasMore = false ∧
      loadMoreData (fetchMappingsSettle s r (Outcome.resolved data)).1 =
        (fetchMappingsSettle s r (Outcome.resolved data)).1) := by
  constructor
  · constructor
    · intro h
      by_contra hc
      push_neg at hc
      obtain ⟨h1, h2, h3, h4⟩ := hc
      simp only [Bool.not_eq_false, Bool.not_eq_true] at h1 h2 h3 h4
      have : loadMoreData s = fetchMappings s true none := by
        unfold loadMoreData; simp [h1, h2, h3, h4]
      exact fetchMappings_loadMore_ne s none h4 (this ▸ h)
    · intro h
      unfold loadMoreData
      rcases h with h | h | h | h <;> simp [h]
  · intro hm hdata hmore
    have hh : (fetchMappingsSettle s r (Outcome.resolved data)).1.hasMore = false := by
      cases data with
      | prim p => exact absurd rfl (hdata p)
      | array xs =>
        simp only [fetchMappingsSettle, onResolved, hm, Bool.not_true, Bool.false_eq_true,
          if_false, finallyBlock_hasMore, hmore]
        rfl
      | object fields =>
        simp only [fetchMappingsSettle, onResolved, hm, Bool.not_true, Bool.false_eq_true,
          if_false, finallyBlock_hasMore, hmore]
        rfl
    refine ⟨hh, ?_⟩
    unfold loadMoreData
    simp [hh]

/-- An instance: while the mount's fresh fetch is in flight, `loading` is true and
`loadMoreData` changes nothing. -/
theorem loadMoreData_gate_witness :
    (run (mount none) [Event.fireLoadTimer]).loading = true ∧
    loadMoreData (run (mount none) [Event.fireLoadTimer]) = run (mount none) [Event.fireLoadTimer] :=
  ⟨by decide,
   (loadMoreData_gate (run (mount none) [Event.fireLoadTimer])
      { id := 0, isLoadMore := false, offset := 0, limit := 50, params := [] }
      (samplePage [] false)).1.2 (Or.inr (Or.inl (by decide)))⟩

/-- C5: in every reachable state at most one fresh fetch is in flight, and
while one is in flight a further fresh call of `fetchMappings` and a call of
`applyFilters` return the state unchanged: no request is sent, no timer is
started, and the list, `offset`, `hasMore` and `error` stay as they are. -/
theorem at_most_one_fresh_fetch (s : State) (hs : Reachable s) :
    (freshInFlight s).length ≤ 1 ∧
    (freshInFlight s ≠ [] →
      (∀ cf, fetchMappings s false cf = s) ∧ applyFilters s = s ∧
        step s Event.applyFilters = s) := by
  have inv := reachable_inv hs
  refine ⟨inv.freshLe, fun hne => ?_⟩
  have href := inv.freshRef hne
  have h1 : ∀ cf, fetchMappings s false cf = s := by
    intro cf
    unfold fetchMappings
    simp [href]
  have h2 : applyFilters s = s := by
    unfold applyFilters
    simp [href]
  refine ⟨h1, h2, ?_⟩
  unfold step syncOffsetRef
  simp [stepCore, h2]

/-- An instance: while the mount's fresh fetch is in flight, `applyFilters` changes nothing. -/
theorem at_most_one_fresh_fetch_witness :
    freshInFlight (run (mount none) [Event.fireLoadTimer]) ≠ [] ∧
    applyFilters (run (mount none) [Event.fireLoadTimer]) =
      run (mount none) [Event.fireLoadTimer] :=
  ⟨by decide,
   ((at_most_one_fresh_fetch (run (mount none) [Event.fireLoadTimer])
      (reachable_run (Reachable.mount none) [Event.fireLoadTimer])).2 (by decide)).2.1⟩

/-! ### Failures -/

/-- C6: after the first page a load-more is issued and its remote call
rejects with a value that has no `message` property: the list is kept, but
`error` stays null and the promise of `fetchMappings` is rejected. -/
theorem loadMore_failure_without_message :
    runUI (mount none)
        (firstPageLoaded ++ [Event.loadMore, Event.settle 1 (Outcome.rejected Rejection.noMessage)]) =
      some (run (mount none)
        (firstPageLoaded ++ [Event.loadMore, Event.settle 1 (Outcome.rejected Rejection.noMessage)])) ∧
    (run (mount none) (firstPageLoaded ++ [Event.loadMore])).inflight.map (fun r => (r.id, r.isLoadMore)) =
      [(1, true)] ∧
    (run (mount none)
        (firstPageLoaded ++ [Event.loadMore, Event.settle 1 (Outcome.rejected Rejection.noMessage)])).mappings =
      [sampleRecord 1, sampleRecord 2] ∧
    (run (mount none)
        (firstPageLoaded ++ [Event.loadMore, Event.settle 1 (Outcome.rejected Rejection.noMessage)])).error =
      none := by
  decide

theorem fresh_failure_with_message (s : State) (r : Request) (msg : String) (p : Prim)
    (hm : s.mounted = true) (hr : r.isLoadMore = false) :
    (fetchMappingsSettle s r (Outcome.rejected (Rejection.error msg))).1.mappings = [] ∧
    (fetchMappingsSettle s r (Outcome.resolved (Resp.prim p))).1.mappings = [] := by
  constructor
  · simp [fetchMappingsSettle, catchBlock, hm, hr, finallyBlock_mappings]
  · simp [fetchMappingsSettle, onResolved, catchBlock, hm, hr, finallyBlock_mappings]

/-- C7 fails on these inputs.  In `lateRecordRun` the search text is applied
with Enter while a load-more is in flight; `applyFilters` empties the list,
the load-more then appends its record, and the fresh fetch 2 of `applyFilters`
rejects with a value without `message`: the list still holds that record and
`error` is null, whereas the same failure with a message empties the list.
In `retryAfterFailedLoadMore` the fresh fetch 2 sent by Retry rejects with a
value without `message`, and the list keeps the two records of the first
page. -/
theorem fresh_failure_without_message_keeps_list :
    runUI (mount none) (lateRecordRun ++ [Event.settle 2 (Outcome.rejected Rejection.noMessage)]) =
      some (run (mount none)
        (lateRecordRun ++ [Event.settle 2 (Outcome.rejected Rejection.noMessage)])) ∧
    (run (mount none)
      (firstPageLoaded ++
        [Event.loadMore, Event.filterChange FilterName.search "theft",
         Event.applyFilters])).mappings = [] ∧
    (run (mount none) lateRecordRun).inflight.map (fun r => (r.id, r.isLoadMore)) =
      [(2, false)] ∧
    (run (mount none) lateRecordRun).mappings = [sampleRecord 3] ∧
    (run (mount none)
      (lateRecordRun ++ [Event.settle 2 (Outcome.rejected Rejection.noMessage)])).mappings =
      [sampleRecord 3] ∧
    (run (mount none)
      (lateRecordRun ++ [Event.settle 2 (Outcome.rejected Rejection.noMessage)])).error = none ∧
    (run (mount none)
      (lateRecordRun ++ [Event.settle 2 (Outcome.rejected Rejection.noMessage)])).inflight = [] ∧
    (run (mount none)
      (lateRecordRun ++
        [Event.settle 2 (Outcome.rejected (Rejection.error "Network request failed"))])).mappings =
      [] ∧
    runUI (mount none)
        (retryAfterFailedLoadMore ++ [Event.settle 2 (Outcome.rejected Rejection.noMessage)]) =
      some (run (mount none)
        (retryAfterFailedLoadMore ++ [Event.settle 2 (Outcome.rejected Rejection.noMessage)])) ∧
    (run (mount none) retryAfterFailedLoadMore).inflight.map (fun r => (r.id, r.isLoadMore)) =
      [(2, false)] ∧
    (run (mount none)
      (retryAfterFailedLoadMore ++
        [Event.settle 2 (Outcome.rejected Rejection.noMessage)])).mappings =
      [sampleRecord 1, sampleRecord 2] := by
  decide

/-- C8 as stated fails: after the failed load-more of `failedLoadMoreRun` the
banner's Retry does not issue a load-more at the current offset 2 but a fresh
fetch at offset 0. -/
theorem retry_after_failed_loadMore_is_fresh :
    runUI (mount none) (failedLoadMoreRun ++ [Event.retryClick]) =
      some (run (mount none) (failedLoadMoreRun ++ [Event.retryClick])) ∧
    (run (mount none) failedLoadMoreRun).error = some "Server error. Please try again later." ∧
    (run (mount none) failedLoadMoreRun).offset = 2 ∧
    (run (mount none) failedLoadMoreRun).inflight = [] ∧
    (run (mount none) (failedLoadMoreRun ++ [Event.retryClick])).inflight =
      [{ id := 2, isLoadMore := false, offset := 0, limit := 50,
         params := [("limit", Prim.num 50), ("offset", Prim.num 0),
                    ("mapping_type", Prim.str "bns_ipc")] }] := by
  decide

/-- C8 (amended): the Retry button of the error banner clears `error` and
leaves the list, `offset`, `hasMore` and the filters as they are; when no
fresh fetch is in flight it sends a fresh fetch (offset 0, the current
filters), whichever kind of fetch failed before, and when one is in flight it
sends nothing. -/
theorem retryClick_sends_fresh (s : State) (hm : s.mounted = true) :
    ((retryClick s).error = none ∧
      (retryClick s).mappings = s.mappings ∧ (retryClick s).offset = s.offset ∧
      (retryClick s).offsetRef = s.offsetRef ∧ (retryClick s).hasMore = s.hasMore ∧
      (retryClick s).filters = s.filters) ∧
    (s.isFetchingRef = false →
      (retryClick s).inflight =
        s.inflight ++
          [{ id := s.issuedCount, isLoadMore := false, offset := 0, limit := pageSize,
             params := buildParams s.mappingType 0 s.filtersRef }] ∧
      (retryClick s).loading = true) ∧
    (s.isFetchingRef = true → (retryClick s).inflight = s.inflight) := by
  refine ⟨?_, ?_, ?_⟩
  · by_cases hf : s.isFetchingRef = true
    · unfold retryClick fetchMappings
      simp [hm, hf]
    · have hf2 : s.isFetchingRef = false := by simpa using hf
      unfold retryClick fetchMappings
      simp [hm, hf2]
  · intro hf
    unfold retryClick fetchMappings
    simp [hm, hf]
  · intro hf
    unfold retryClick fetchMappings
    simp [hm, hf]

/-- An instance: after the failed load-more the Retry click leaves the list as
it is and sends a fresh fetch. -/
theorem retryClick_sends_fresh_witness :
    (run (mount none) failedLoadMoreRun).mounted = true ∧
    (run (mount none) failedLoadMoreRun).isFetchingRef = false ∧
    (retryClick (run (mount none) failedLoadMoreRun)).mappings =
      (run (mount none) failedLoadMoreRun).mappings ∧
    (retryClick (run (mount none) failedLoadMoreRun)).loading = true :=
  ⟨by decide, by decide,
   (retryClick_sends_fresh (run (mount none) failedLoadMoreRun) (by decide)).1.2.1,
   ((retryClick_sends_fresh (run (mount none) failedLoadMoreRun) (by decide)).2.1
      (by decide)).2⟩

/-- C9: the remote call of the mount's fresh fetch rejects with a value that
has no `message` property; the handler raises a `TypeError`, so the promise of
`fetchMappings` is rejected and no error message is set. -/
theorem fetchMappings_rejects_without_message :
    (run (mount none) [Event.fireLoadTimer]).inflight =
      [requestOf (mount none) false emptyFilters] ∧
    (fetchMappingsSettle (run (mount none) [Event.fireLoadTimer])
      (requestOf (mount none) false emptyFilters) (Outcome.rejected Rejection.noMessage)).2 =
        Completion.rejectedTypeError ∧
    (fetchMappingsSettle (run (mount none) [Event.fireLoadTimer])
      (requestOf (mount none) false emptyFilters) (Outcome.rejected Rejection.noMessage)).1.error =
        none := by
  decide

/-- C10 as stated fails: the mount's fresh fetch resolves with the object
`{}`, or with `{data: 5}`; the page is treated as empty, but `error` stays
null. -/
theorem unrecognized_object_sets_no_error :
    runUI (mount none) [Event.fireLoadTimer, Event.settle 0 (Outcome.resolved (Resp.object []))] =
      some (run (mount none)
        [Event.fireLoadTimer, Event.settle 0 (Outcome.resolved (Resp.object []))]) ∧
    (run (mount none)
      [Event.fireLoadTimer, Event.settle 0 (Outcome.resolved (Resp.object []))]).mappings = [] ∧
    (run (mount none)
      [Event.fireLoadTimer, Event.settle 0 (Outcome.resolved (Resp.object []))]).error = none ∧
    (run (mount none)
      [Event.fireLoadTimer,
       Event.settle 0 (Outcome.resolved (Resp.object [("data", Val.prim (Prim.num 5))]))]).mappings =
      [] ∧
    (run (mount none)
      [Event.fireLoadTimer,
       Event.settle 0 (Outcome.resolved (Resp.object [("data", Val.prim (Prim.num 5))]))]).error =
      none := by
  decide

/-- C10 (amended): when a successful response is an object of unrecognized
shape (its `data` is not an array), the fetched page is treated as empty (a
fresh fetch leaves the list empty and `offset` 0, a load-more leaves both as
they are) and `error` is left as it is, which is null when the response
answers a fresh fetch with nothing happening in between.  Only a response
that is not an object at all (a primitive value) sets `error`, to a message
naming its type. -/
theorem unrecognized_shape_is_empty_page (s : State) (r : Request)
    (fields : List (String × Val)) (p : Prim) (cf : Option Filters)
    (hm : s.mounted = true) (hshape : ∀ xs, fields.lookup "data" ≠ some (Val.array xs)) :
    (mappingsArrayOf (Resp.object fields) = [] ∧
      (fetchMappingsSettle s r (Outcome.resolved (Resp.object fields))).1.mappings =
        (if r.isLoadMore then s.mappings else []) ∧
      (fetchMappingsSettle s r (Outcome.resolved (Resp.object fields))).1.offset =
        (if r.isLoadMore then s.offset else 0) ∧
      (fetchMappingsSettle s r (Outcome.resolved (Resp.object fields))).1.error = s.error ∧
      (fetchMappingsSettle s r (Outcome.resolved (Resp.object fields))).2 =
        Completion.fulfilled) ∧
    (s.isFetchingRef = false →
      (fetchMappingsSettle (fetchMappings s false cf) r
        (Outcome.resolved (Resp.object fields))).1.error = none) ∧
    (fetchMappingsSettle s r (Outcome.resolved (Resp.prim p))).1.error =
      some ("Invalid API response: Expected object but got " ++ p.typeofName) := by
  have h0 := mappingsArrayOf_unrecognized fields hshape
  have key : ∀ t : State, t.mounted = true →
      (fetchMappingsSettle t r (Outcome.resolved (Resp.object fields))).1.mappings =
        (if r.isLoadMore then t.mappings else []) ∧
      (fetchMappingsSettle t r (Outcome.resolved (Resp.object fields))).1.offset =
        (if r.isLoadMore then t.offset else 0) ∧
      (fetchMappingsSettle t r (Outcome.resolved (Resp.object fields))).1.error = t.error ∧
      (fetchMappingsSettle t r (Outcome.resolved (Resp.object fields))).2 =
        Completion.fulfilled := by
    intro t ht
    simp only [fetchMappingsSettle, onResolved, ht, Bool.not_true, Bool.false_eq_true, if_false,
      h0, finallyBlock_mappings, finallyBlock_offset, finallyBlock_error, List.append_nil,
      List.length_nil, Nat.add_zero, and_true]
  refine ⟨⟨h0, key s hm⟩, ?_, ?_⟩
  · intro hf
    have ht : (fetchMappings s false cf).mounted = true := by
      unfold fetchMappings; simp [hm, hf]
    rw [(key _ ht).2.2.1]
    unfold fetchMappings; simp [hm, hf]
  · simp only [fetchMappingsSettle, onResolved, catchBlock, hm, Bool.not_true,
      Bool.false_eq_true, if_false, finallyBlock_error, classifyError_invalid]

/-- An instance: the response `{data: 5}` to the mount's fresh fetch leaves `error` as it is. -/
theorem unrecognized_shape_is_empty_page_witness :
    (run (mount none) [Event.fireLoadTimer]).mounted = true ∧
    (fetchMappingsSettle (run (mount none) [Event.fireLoadTimer])
      (requestOf (mount none) false emptyFilters)
      (Outcome.resolved (Resp.object [("data", Val.prim (Prim.num 5))]))).1.error =
      (run (mount none) [Event.fireLoadTimer]).error :=
  ⟨by decide,
   (unrecognized_shape_is_empty_page (run (mount none) [Event.fireLoadTimer])
      (requestOf (mount none) false emptyFilters) [("data", Val.prim (Prim.num 5))] Prim.null none
      (by decide) (fun xs h => by simp [List.lookup] at h)).1.2.2.2.1⟩

/-! ### Successful responses -/

theorem Resp.carries_mappingsArrayOf {data : Resp} {p : List Obj} (h : data.carries p) :
    mappingsArrayOf data = p ∧ ∀ q, data ≠ Resp.prim q := by
  rcases h with h | ⟨fields, h, hl⟩
  · subst h
    exact ⟨by simp [mappingsArrayOf, Resp.getProp], fun q hq => by cases hq⟩
  · subst h
    exact ⟨by simp [mappingsArrayOf, Resp.getProp, hl], fun q hq => by cases hq⟩

theorem onResolved_success (s : State) (r : Request) (data : Resp) (hm : s.mounted = true)
    (hd : ∀ q, data ≠ Resp.prim q) :
    (fetchMappingsSettle s r (Outcome.resolved data)).1.mappings =
      (if r.isLoadMore then s.mappings ++ mappingsArrayOf data else mappingsArrayOf data) ∧
    (fetchMappingsSettle s r (Outcome.resolved data)).1.offset =
      (if r.isLoadMore then s.offset + (mappingsArrayOf data).length
       else (mappingsArrayOf data).length) ∧
    (fetchMappingsSettle s r (Outcome.resolved data)).1.offsetRef =
      (if r.isLoadMore then s.offsetRef + (mappingsArrayOf data).length
       else (mappingsArrayOf data).length) ∧
    (fetchMappingsSettle s r (Outcome.resolved data)).1.error = s.error ∧
    (fetchMappingsSettle s r (Outcome.resolved data)).1.hasMore =
      ((paginationInfoOf data).getProp "has_more" != Prim.bool false) ∧
    (fetchMappingsSettle s r (Outcome.resolved data)).2 = Completion.fulfilled := by
  cases data with
  | prim q => exact absurd rfl (hd q)
  | array xs =>
    simp only [fetchMappingsSettle, onResolved, hm, Bool.not_true, Bool.false_eq_true, if_false,
      (finallyBlock_frame _ _).1, (finallyBlock_frame _ _).2.1, (finallyBlock_frame _ _).2.2.1,
      (finallyBlock_frame _ _).2.2.2.1, (finallyBlock_frame _ _).2.2.2.2.1, and_self]
  | object fields =>
    simp only [fetchMappingsSettle, onResolved, hm, Bool.not_true, Bool.false_eq_true, if_false,
      (finallyBlock_frame _ _).1, (finallyBlock_frame _ _).2.1, (finallyBlock_frame _ _).2.2.1,
      (finallyBlock_frame _ _).2.2.2.1, (finallyBlock_frame _ _).2.2.2.2.1, and_self]

/-- C11 as stated fails: in `failureDuringFreshRun` the fresh fetch 2 of the
new category succeeds with one record, the list and `offset` follow it, but
`error` still holds the message of the load-more that failed while the fresh
fetch was in flight. -/
theorem failureDuringFreshRun_error_stays :
    runUI (mount none) failureDuringFreshRun = some (run (mount none) failureDuringFreshRun) ∧
    (run (mount none) failureDuringFreshRun).log.getLast? = some (Obs.applied 2 false) ∧
    (run (mount none) failureDuringFreshRun).mappings = [sampleRecord 30] ∧
    (run (mount none) failureDuringFreshRun).offset = 1 ∧
    (run (mount none) failureDuringFreshRun).error =
      some "Network error. Please check your internet connection and try again." := by
  decide

/-- C11 (amended): in the mounted view, a successful fresh fetch whose
response carries the record list `p` (as a bare array or as `data` of an
object) leaves the list equal to `p`, `offset` and `offsetRef` equal to the
length of `p`, `hasMore` true unless `pagination_info.has_more` is `false`,
and `error` as it was when the response arrived; `error` is null when the
response follows the start of the fetch with nothing in between. -/
theorem fresh_success_replaces_list (s : State) (r : Request) (data : Resp) (p : List Obj)
    (cf : Option Filters) (hm : s.mounted = true) (hr : r.isLoadMore = false)
    (hp : data.carries p) :
    ((fetchMappingsSettle s r (Outcome.resolved data)).1.mappings = p ∧
      (fetchMappingsSettle s r (Outcome.resolved data)).1.offset = p.length ∧
      (fetchMappingsSettle s r (Outcome.resolved data)).1.offsetRef = p.length ∧
      (fetchMappingsSettle s r (Outcome.resolved data)).1.hasMore =
        ((paginationInfoOf data).getProp "has_more" != Prim.bool false) ∧
      (fetchMappingsSettle s r (Outcome.resolved data)).1.error = s.error) ∧
    (s.isFetchingRef = false →
      (fetchMappingsSettle (fetchMappings s false cf) r (Outcome.resolved data)).1.error =
        none) := by
  obtain ⟨hp1, hp2⟩ := Resp.carries_mappingsArrayOf hp
  have key : ∀ t : State, t.mounted = true →
      (fetchMappingsSettle t r (Outcome.resolved data)).1.mappings = p ∧
      (fetchMappingsSettle t r (Outcome.resolved data)).1.offset = p.length ∧
      (fetchMappingsSettle t r (Outcome.resolved data)).1.offsetRef = p.length ∧
      (fetchMappingsSettle t r (Outcome.resolved data)).1.hasMore =
        ((paginationInfoOf data).getProp "has_more" != Prim.bool false) ∧
      (fetchMappingsSettle t r (Outcome.resolved data)).1.error = t.error := by
    intro t ht
    obtain ⟨h1, h2, h3, h4, h5, _⟩ := onResolved_success t r data ht hp2
    rw [hr, hp1] at h1 h2 h3
    exact ⟨by simpa using h1, by simpa using h2, by simpa using h3, h5, h4⟩
  refine ⟨key s hm, fun hf => ?_⟩
  have ht : (fetchMappings s false cf).mounted = true := by
    unfold fetchMappings; simp [hm, hf]
  rw [(key _ ht).2.2.2.2]
  unfold fetchMappings; simp [hm, hf]

/-- An instance: fifty records with `has_more: true` answering the mount's
fresh fetch give a list of fifty, `offset` fifty and `hasMore` true. -/
theorem fresh_success_replaces_list_witness :
    (run (mount none) [Event.fireLoadTimer]).mounted = true ∧
    (fetchMappingsSettle (run (mount none) [Event.fireLoadTimer])
      (requestOf (mount none) false emptyFilters)
      (Outcome.resolved (samplePage (List.replicate 50 (sampleRecord 7)) true))).1.mappings.length =
      50 ∧
    (fetchMappingsSettle (run (mount none) [Event.fireLoadTimer])
      (requestOf (mount none) false emptyFilters)
      (Outcome.resolved (samplePage (List.replicate 50 (sampleRecord 7)) true))).1.offset = 50 ∧
    (fetchMappingsSettle (run (mount none) [Event.fireLoadTimer])
      (requestOf (mount none) false emptyFilters)
      (Outcome.resolved (samplePage (List.replicate 50 (sampleRecord 7)) true))).1.hasMore =
      true :=
  have h := fresh_success_replaces_list (run (mount none) [Event.fireLoadTimer])
    (requestOf (mount none) false emptyFilters)
    (samplePage (List.replicate 50 (sampleRecord 7)) true) (List.replicate 50 (sampleRecord 7))
    none (by decide) (by decide) (Or.inr ⟨_, rfl, by decide⟩)
  ⟨by decide, by rw [h.1.1]; decide, by rw [h.1.2.1]; decide, by rw [h.1.2.2.2.1]; decide⟩

/-- C12: in the mounted view, a successful load-more whose response carries
the record list `p` leaves the list equal to the old list followed by `p`, and
`offset` (with `offsetRef`) larger by exactly the length of `p`; the same
holds for the task that settles the load-more request. -/
theorem loadMore_success_appends (s : State) (r : Request) (data : Resp) (p : List Obj)
    (hm : s.mounted = true) (hr : r.isLoadMore = true) (hp : data.carries p) :
    ((fetchMappingsSettle s r (Outcome.resolved data)).1.mappings = s.mappings ++ p ∧
      (fetchMappingsSettle s r (Outcome.resolved data)).1.offset = s.offset + p.length ∧
      (fetchMappingsSettle s r (Outcome.resolved data)).1.offsetRef =
        s.offsetRef + p.length) ∧
    (s.inflight.find? (fun q => q.id == r.id) = some r →
      (step s (Event.settle r.id (Outcome.resolved data))).mappings = s.mappings ++ p ∧
      (step s (Event.settle r.id (Outcome.resolved data))).offset = s.offset + p.length) := by
  obtain ⟨hp1, hp2⟩ := Resp.carries_mappingsArrayOf hp
  have key : ∀ t : State, t.mounted = true →
      (fetchMappingsSettle t r (Outcome.resolved data)).1.mappings = t.mappings ++ p ∧
      (fetchMappingsSettle t r (Outcome.resolved data)).1.offset = t.offset + p.length ∧
      (fetchMappingsSettle t r (Outcome.resolved data)).1.offsetRef =
        t.offsetRef + p.length := by
    intro t ht
    obtain ⟨h1, h2, h3, _⟩ := onResolved_success t r data ht hp2
    rw [hr, hp1] at h1 h2 h3
    exact ⟨by simpa using h1, by simpa using h2, by simpa using h3⟩
  refine ⟨key s hm, fun hfind => ?_⟩
  have hk := key { s with inflight := s.inflight.filter (fun q => q.id != r.id) } hm
  have hcore : stepCore s (Event.settle r.id (Outcome.resolved data)) =
      (fetchMappingsSettle { s with inflight := s.inflight.filter (fun q => q.id != r.id) } r
        (Outcome.resolved data)).1 := by
    simp only [stepCore, settle, hfind]
  unfold step
  rw [hcore]
  unfold syncOffsetRef
  split_ifs
  · exact ⟨hk.1, hk.2.1⟩
  · exact ⟨hk.1, hk.2.1⟩

/-- An instance: the load-more after the first page resolves with one record,
which is appended to the two records of the list. -/
theorem loadMore_success_appends_witness :
    (run (mount none) (firstPageLoaded ++ [Event.loadMore])).mounted = true ∧
    (fetchMappingsSettle (run (mount none) (firstPageLoaded ++ [Event.loadMore]))
      (requestOf (run (mount none) firstPageLoaded) true emptyFilters)
      (Outcome.resolved (Resp.array [sampleRecord 3]))).1.mappings =
      (run (mount none) (firstPageLoaded ++ [Event.loadMore])).mappings ++ [sampleRecord 3] :=
  ⟨by decide,
   (loadMore_success_appends (run (mount none) (firstPageLoaded ++ [Event.loadMore]))
      (requestOf (run (mount none) firstPageLoaded) true emptyFilters)
      (Resp.array [sampleRecord 3]) [sampleRecord 3] (by decide) (by decide)
      (Or.inl rfl)).1.1⟩

/-- C13: in `staleRequestRun` the load-more request 3 is sent with offset 2
while the list holds no record. -/
theorem staleRequestRun_offset_ne_length :
    runUI (mount none) staleRequestRun = some (run (mount none) staleRequestRun) ∧
    (run (mount none) staleRequestRun).inflight.map (fun r => (r.id, r.isLoadMore, r.offset)) =
      [(3, true, 2)] ∧
    (run (mount none) staleRequestRun).mappings = [] := by
  decide

theorem paginationInfoOf_getProp (data : Resp) (k : String) :
    (paginationInfoOf data).getProp k = (data.getProp "pagination_info").getProp k := by
  unfold paginationInfoOf
  dsimp only
  split_ifs with h
  · rfl
  · cases hv : data.getProp "pagination_info" with
    | prim q => simp [Val.getProp, Obj.getProp]
    | array xs => rw [hv] at h; simp [Val.truthy] at h
    | object o => rw [hv] at h; simp [Val.truthy] at h

/-- C14: in the mounted view, after a successful fetch of either kind
`hasMore` is false exactly when `pagination_info.has_more` of the response is
the boolean `false`; a bare array, a response without `pagination_info` and a
`pagination_info` without `has_more` leave `hasMore` true. -/
theorem hasMore_false_iff (s : State) (r : Request) (data : Resp) (hm : s.mounted = true)
    (hd : ∀ q, data ≠ Resp.prim q) :
    ((fetchMappingsSettle s r (Outcome.resolved data)).1.hasMore = false ↔
      (data.getProp "pagination_info").getProp "has_more" = Prim.bool false) ∧
    (∀ xs, data = Resp.array xs →
      (fetchMappingsSettle s r (Outcome.resolved data)).1.hasMore = true) ∧
    (∀ fields, data = Resp.object fields → fields.lookup "pagination_info" = none →
      (fetchMappingsSettle s r (Outcome.resolved data)).1.hasMore = true) ∧
    (∀ fields o, data = Resp.object fields →
      fields.lookup "pagination_info" = some (Val.object o) → o.lookup "has_more" = none →
      (fetchMappingsSettle s r (Outcome.resolved data)).1.hasMore = true) := by
  have h5 := (onResolved_success s r data hm hd).2.2.2.2.1
  rw [paginationInfoOf_getProp] at h5
  refine ⟨?_, ?_, ?_, ?_⟩
  · rw [h5]; simp
  · intro xs hx
    rw [h5, hx]
    simp [Resp.getProp, Val.getProp]
  · intro fields hx hl
    rw [h5, hx]
    simp [Resp.getProp, Val.getProp, hl]
  · intro fields o hx hl ho
    rw [h5, hx]
    simp [Resp.getProp, Val.getProp, Obj.getProp, hl, ho]

/-- An instance: the load-more after the first page resolves with
`has_more: false`, and `hasMore` is false afterwards. -/
theorem hasMore_false_iff_witness :
    (run (mount none) (firstPageLoaded ++ [Event.loadMore])).mounted = true ∧
    (fetchMappingsSettle (run (mount none) (firstPageLoaded ++ [Event.loadMore]))
      (requestOf (run (mount none) firstPageLoaded) true emptyFilters)
      (Outcome.resolved (samplePage [sampleRecord 3] false))).1.hasMore = false :=
  ⟨by decide,
   (hasMore_false_iff (run (mount none) (firstPageLoaded ++ [Event.loadMore]))
      (requestOf (run (mount none) firstPageLoaded) true emptyFilters)
      (samplePage [sampleRecord 3] false) (by decide)
      (fun q hq => by simp [samplePage] at hq)).1.2 (by decide)⟩
/-! ### The request parameters -/

theorem trimIsEmpty_or (x : String) : (x == "" || trimIsEmpty x) = trimIsEmpty x := by
  by_cases h : x = ""
  · subst h; rfl
  · simp [h]

theorem ne_empty_of_not_blank {x : String} (h : trimIsEmpty x = false) : x ≠ "" := by
  intro hx; subst hx; exact Bool.noConfusion h

theorem buildParams_eq (mt : String) (off : Nat) (f : Filters) :
    buildParams mt off f =
      [("limit", Prim.num pageSize), ("offset", Prim.num off), ("mapping_type", Prim.str mt)] ++
        filterParams f := by
  unfold buildParams removeEmptyParams
  rw [List.filter_eq_self]
  intro kv hkv
  simp only [List.mem_append, List.mem_cons, List.mem_singleton, List.not_mem_nil, or_false] at hkv
  rcases hkv with (h | h | h) | h
  · subst h; decide
  · subst h; simp
  · subst h; simp
  · unfold filterParams at h
    simp only [List.mem_map, List.mem_filter, trimIsEmpty_or] at h
    obtain ⟨a, ⟨_, ha⟩, rfl⟩ := h
    have hne := ne_empty_of_not_blank (by simpa using ha)
    simp [hne]

theorem filterParams_lookup (f : Filters) (name : FilterName) :
    (filterParams f).lookup name.key =
      if trimIsEmpty (f.get name) then none else some (Prim.str (f.get name)) := by
  unfold filterParams Filters.entries
  simp only [trimIsEmpty_or]
  cases name <;> cases h1 : trimIsEmpty f.search <;> cases h2 : trimIsEmpty f.subject <;>
    cases h3 : trimIsEmpty f.source_section <;> cases h4 : trimIsEmpty f.target_section <;>
    simp [List.filter, List.lookup, FilterName.key, Filters.get, h1, h2, h3, h4]

theorem buildParams_lookup (mt : String) (off : Nat) (f : Filters) (name : FilterName) :
    (buildParams mt off f).lookup name.key =
      if trimIsEmpty (f.get name) then none else some (Prim.str (f.get name)) := by
  rw [buildParams_eq, ← filterParams_lookup]
  cases name <;> simp [List.lookup, FilterName.key]

theorem buildParams_no_empty (mt : String) (off : Nat) (f : Filters) (kv : String × Prim)
    (hkv : kv ∈ buildParams mt off f) (hk : kv.1 ≠ "mapping_type") : kv.2 ≠ Prim.str "" := by
  rw [buildParams_eq] at hkv
  simp only [List.mem_append, List.mem_cons, List.mem_singleton, List.not_mem_nil, or_false] at hkv
  rcases hkv with (h | h | h) | h
  · subst h; simp
  · subst h; simp
  · subst h; exact absurd rfl hk
  · unfold filterParams at h
    simp only [List.mem_map, List.mem_filter, trimIsEmpty_or] at h
    obtain ⟨a, ⟨_, ha⟩, rfl⟩ := h
    have hne := ne_empty_of_not_blank (by simpa using ha)
    simp [hne]

/-- C15: for every mapping type, offset and filter object the built `params`
hold `limit` = 50, the offset, `mapping_type` = the mapping type, and no key
other than `mapping_type` with the empty string as value (in particular no
filter key); and every request that a call of `fetchMappings` sends has limit
50, the offset `offsetRef` for a load-more and 0 for a fresh fetch, and the
`params` built from the current mapping type and the active filters. -/
theorem request_params (s : State) (isLoadMore : Bool) (cf : Option Filters) (r : Request)
    (mt : String) (off : Nat) (f : Filters) (name : FilterName)
    (hr : r ∈ (fetchMappings s isLoadMore cf).inflight) (hnew : r ∉ s.inflight) :
    ((buildParams mt off f).lookup "limit" = some (Prim.num 50) ∧
      (buildParams mt off f).lookup "offset" = some (Prim.num off) ∧
      (buildParams mt off f).lookup "mapping_type" = some (Prim.str mt) ∧
      (buildParams mt off f).lookup name.key ≠ some (Prim.str "") ∧
      (∀ kv ∈ buildParams mt off f, kv.1 ≠ "mapping_type" → kv.2 ≠ Prim.str "")) ∧
    (r.limit = 50 ∧ r.offset = (if isLoadMore then s.offsetRef else 0) ∧
      r.params = buildParams s.mappingType r.offset (cf.getD s.filtersRef)) := by
  refine ⟨⟨?_, ?_, ?_, ?_, ?_⟩, ?_⟩
  · rw [buildParams_eq]; simp [List.lookup, pageSize]
  · rw [buildParams_eq]; simp [List.lookup]
  · rw [buildParams_eq]; simp [List.lookup]
  · rw [buildParams_lookup]
    split_ifs with h
    · simp
    · intro he
      injection he with he
      injection he with he
      rw [he] at h
      exact h rfl
  · intro kv hkv hk
    exact buildParams_no_empty mt off f kv hkv hk
  · rcases fetchMappings_cases s isLoadMore cf with h | ⟨_, hin, _⟩
    · rw [h] at hr; exact absurd hr hnew
    · rw [hin, List.mem_append, List.mem_singleton] at hr
      rcases hr with hr | hr
      · exact absurd hr hnew
      · subst hr
        simp [requestOf, pageSize]

/-- An instance: the request sent by the mount timer. -/
theorem request_params_witness :
    requestOf (mount none) false emptyFilters ∈
      (fetchMappings (mount none) false none).inflight ∧
    requestOf (mount none) false emptyFilters ∉ (mount none).inflight ∧
    (requestOf (mount none) false emptyFilters).limit = 50 :=
  ⟨by decide, by decide,
   (request_params (mount none) false none (requestOf (mount none) false emptyFilters)
      "bns_ipc" 0 emptyFilters FilterName.search (by decide) (by decide)).2.1⟩

/-- C16 as stated fails: a subject filter that consists of one space is a
non-empty string, yet the built `params` hold no `subject` key; and on the
page, a search text of one space applied with Enter gives a request that holds
only `limit`, `offset` and `mapping_type`. -/
theorem blankSubject_is_omitted :
    blankSubject.subject ≠ "" ∧
    (buildParams "bns_ipc" 0 blankSubject).lookup "subject" = none ∧
    (run (mount none)
      (firstPageLoaded ++
        [Event.filterChange FilterName.search " ", Event.applyFilters,
         Event.fireApplyTimer])).filtersRef.search = " " ∧
    (run (mount none)
      (firstPageLoaded ++
        [Event.filterChange FilterName.search " ", Event.applyFilters,
         Event.fireApplyTimer])).inflight.map (fun r => r.params) =
      [[("limit", Prim.num 50), ("offset", Prim.num 0), ("mapping_type", Prim.str "bns_ipc")]] ∧
    runUI (mount none)
      (firstPageLoaded ++
        [Event.filterChange FilterName.search " ", Event.applyFilters,
         Event.fireApplyTimer]) =
      some (run (mount none)
        (firstPageLoaded ++
          [Event.filterChange FilterName.search " ", Event.applyFilters,
           Event.fireApplyTimer])) := by
  decide

/-- C16 (amended): for every filter object, the built `params` hold each
filter whose value is not blank (not empty after `trim`) under its own key
with the value unchanged, and hold no key for a filter whose value is empty
or consists only of whitespace. -/
theorem filter_param_iff_not_blank (mt : String) (off : Nat) (f : Filters)
    (name : FilterName) :
    (buildParams mt off f).lookup name.key =
      (if trimIsEmpty (f.get name) then none else some (Prim.str (f.get name))) ∧
    (trimIsEmpty (f.get name) = false →
      (name.key, Prim.str (f.get name)) ∈ buildParams mt off f) := by
  refine ⟨buildParams_lookup mt off f name, fun h => ?_⟩
  have hl := buildParams_lookup mt off f name
  rw [h] at hl
  simp only [Bool.false_eq_true, if_false] at hl
  obtain ⟨l1, l2, heq, _⟩ := List.lookup_eq_some_iff.mp hl
  rw [heq]
  simp

/-- An instance: a subject of `theft` is sent under the key `subject`. -/
theorem filter_param_iff_not_blank_witness :
    trimIsEmpty
        (({ search := "", subject := "theft", source_section := "", target_section := "" } :
          Filters).get FilterName.subject) = false ∧
    (FilterName.subject.key, Prim.str "theft") ∈
      buildParams "bns_ipc" 0
        { search := "", subject := "theft", source_section := "", target_section := "" } :=
  ⟨by decide,
   (filter_param_iff_not_blank "bns_ipc" 0
      { search := "", subject := "theft", source_section := "", target_section := "" }
      FilterName.subject).2 (by decide)⟩

/-! ### Category change -/

/-- C17 as stated fails: in `switchDuringFirstLoad` the category is switched
to `bsa_iea` while the mount's fresh fetch for `bns_ipc` is in flight: the
load effect starts no timer and no request is sent for the new category,
neither then nor after the fetch has settled; the list then shows the
`bns_ipc` record under `bsa_iea`. -/
theorem switchDuringFirstLoad_sends_no_request :
    runUI (mount none) switchDuringFirstLoad = some (run (mount none) switchDuringFirstLoad) ∧
    (run (mount none) [Event.fireLoadTimer]).inflight.map (fun r => (r.id, r.params)) =
      [(0, [("limit", Prim.num 50), ("offset", Prim.num 0),
            ("mapping_type", Prim.str "bns_ipc")])] ∧
    (run (mount none) [Event.fireLoadTimer, Event.clickCategory "bsa_iea"]).mappingType =
      "bsa_iea" ∧
    (run (mount none) [Event.fireLoadTimer, Event.clickCategory "bsa_iea"]).loadTimer = none ∧
    (run (mount none) switchDuringFirstLoad).log = [Obs.issued 0 false, Obs.applied 0 false] ∧
    (run (mount none) switchDuringFirstLoad).inflight = [] ∧
    (run (mount none) switchDuringFirstLoad).loadTimer = none ∧
    (run (mount none) switchDuringFirstLoad).debounceTimer = none ∧
    (run (mount none) switchDuringFirstLoad).applyTimers = 0 ∧
    (run (mount none) switchDuringFirstLoad).clearTimers = 0 ∧
    (run (mount none) switchDuringFirstLoad).mappingType = "bsa_iea" ∧
    (run (mount none) switchDuringFirstLoad).mappings = [sampleRecord 1] := by
  decide

theorem setMappingType_fields (s : State) (t : String) (ht : t ≠ s.mappingType) :
    (setMappingType s t).mappingType = t ∧ (setMappingType s t).mappings = [] ∧
    (setMappingType s t).offset = 0 ∧ (setMappingType s t).offsetRef = 0 ∧
    (setMappingType s t).hasMore = true ∧ (setMappingType s t).error = none ∧
    (setMappingType s t).filters = emptyFilters ∧
    (setMappingType s t).filtersRef = emptyFilters ∧
    (setMappingType s t).inflight = s.inflight ∧
    (setMappingType s t).mounted = s.mounted ∧
    (setMappingType s t).isFetchingRef = s.isFetchingRef ∧
    (setMappingType s t).issuedCount = s.issuedCount := by
  unfold setMappingType
  rw [if_neg ht]
  unfold debounceEffect loadEffect resetEffect
  dsimp only
  split_ifs <;> simp

/-- C18: for every state and every mapping type different from the current
one, right after the change the mapping type is the new one, the list is
empty, `offset` is 0, `hasMore` is true, `error` is null and all four filters
are the empty string, and no request has been sent by the change; the same
holds after the click on a category button in the mounted view. -/
theorem category_change_resets (s : State) (t : String) (ht : t ≠ s.mappingType) :
    ((setMappingType s t).mappingType = t ∧ (setMappingType s t).mappings = [] ∧
      (setMappingType s t).offset = 0 ∧ (setMappingType s t).hasMore = true ∧
      (setMappingType s t).error = none ∧
      (setMappingType s t).filters =
        { search := "", subject := "", source_section := "", target_section := "" } ∧
      (setMappingType s t).inflight = s.inflight) ∧
    (s.mounted = true → validTypes.contains t = true →
      (step s (Event.clickCategory t)).mappingType = t ∧
      (step s (Event.clickCategory t)).mappings = [] ∧
      (step s (Event.clickCategory t)).offset = 0 ∧
      (step s (Event.clickCategory t)).hasMore = true ∧
      (step s (Event.clickCategory t)).error = none ∧
      (step s (Event.clickCategory t)).filters =
        { search := "", subject := "", source_section := "", target_section := "" } ∧
      (step s (Event.clickCategory t)).inflight = s.inflight) := by
  obtain ⟨h1, h2, h3, h4, h5, h6, h7, h8, h9, _⟩ := setMappingType_fields s t ht
  have hcore : (setMappingType s t).mappingType = t ∧ (setMappingType s t).mappings = [] ∧
      (setMappingType s t).offset = 0 ∧ (setMappingType s t).hasMore = true ∧
      (setMappingType s t).error = none ∧
      (setMappingType s t).filters =
        { search := "", subject := "", source_section := "", target_section := "" } ∧
      (setMappingType s t).inflight = s.inflight := ⟨h1, h2, h3, h5, h6, h7, h9⟩
  refine ⟨hcore, fun hm hv => ?_⟩
  have hstep : stepCore s (Event.clickCategory t) = setMappingType s t := by
    have hc : (s.mounted && validTypes.contains t) = true := by rw [hm, hv]; rfl
    simp only [stepCore, hc, if_true]
  unfold step
  rw [hstep]
  unfold syncOffsetRef
  split_ifs
  · exact hcore
  · exact hcore

/-- An instance: after the first page the click on `bsa_iea` empties the list. -/
theorem category_change_resets_witness :
    "bsa_iea" ≠ (run (mount none) firstPageLoaded).mappingType ∧
    (run (mount none) firstPageLoaded).mappings ≠ [] ∧
    (step (run (mount none) firstPageLoaded) (Event.clickCategory "bsa_iea")).mappings = [] :=
  ⟨by decide, by decide,
   ((category_change_resets (run (mount none) firstPageLoaded) "bsa_iea" (by decide)).2
      (by decide) (by decide)).2.1⟩

/-! ### The auto-apply timer -/

theorem DebounceInv.of_frame {s t : State} (hf : t.filters = s.filters)
    (ht : t.debounceTimer = s.debounceTimer ∨ t.debounceTimer = none) (hs : DebounceInv s) :
    DebounceInv t := by
  intro f hft
  rw [hf]
  rcases ht with ht | ht
  · exact hs f (ht ▸ hft)
  · rw [ht] at hft; cases hft

theorem debounceEffect_debounceInv (prev : Filters) (s : State)
    (h : ∀ f, s.debounceTimer = some f → sameNonText f prev) :
    DebounceInv (debounceEffect prev s) := by
  unfold debounceEffect
  split_ifs with h1 h2 h3
  · intro f hf
    obtain ⟨a, b, c⟩ := h f hf
    exact ⟨a.trans h1.1.symm, b.trans h1.2.1.symm, c.trans h1.2.2.symm⟩
  · intro f hf; cases hf
  · intro f hf; cases hf
  · intro f hf
    injection hf with hf
    subst hf
    exact ⟨rfl, rfl, rfl⟩

theorem fetchMappings_timers (s : State) (b : Bool) (cf : Option Filters) :
    (fetchMappings s b cf).debounceTimer = s.debounceTimer ∧
    (fetchMappings s b cf).loadTimer = s.loadTimer ∧
    (fetchMappings s b cf).applyTimers = s.applyTimers ∧
    (fetchMappings s b cf).clearTimers = s.clearTimers := by
  unfold fetchMappings; split_ifs <;> simp

theorem fetchMappingsSettle_filters (s : State) (r : Request) (o : Outcome) :
    (fetchMappingsSettle s r o).1.filters = s.filters ∧
    (fetchMappingsSettle s r o).1.debounceTimer = s.debounceTimer := by
  have hc : ∀ e, (catchBlock s r e).1.filters = s.filters ∧
      (catchBlock s r e).1.debounceTimer = s.debounceTimer := by
    intro e
    unfold catchBlock finallyBlock
    by_cases hm : s.mounted = true
    · cases e <;> simp [hm]
    · simp only [Bool.not_eq_true] at hm
      simp [hm]
  cases o with
  | rejected e => exact hc e
  | resolved data =>
    cases data with
    | prim p => exact hc _
    | array xs =>
      unfold fetchMappingsSettle onResolved finallyBlock
      by_cases hm : s.mounted = true
      · simp [hm]
      · simp only [Bool.not_eq_true] at hm
        simp [hm]
    | object fields =>
      unfold fetchMappingsSettle onResolved finallyBlock
      by_cases hm : s.mounted = true
      · simp [hm]
      · simp only [Bool.not_eq_true] at hm
        simp [hm]

theorem setMappingType_debounceInv (s : State) (t : String) (hs : DebounceInv s) :
    DebounceInv (setMappingType s t) := by
  unfold setMappingType
  split_ifs
  · exact hs
  · apply debounceEffect_debounceInv
    intro f hf
    apply hs f
    rw [← hf]
    unfold loadEffect resetEffect
    dsimp only
    split_ifs <;> rfl

theorem handleFilterChange_debounceInv (s : State) (n : FilterName) (v : String)
    (hs : DebounceInv s) : DebounceInv (handleFilterChange s n v) := by
  unfold handleFilterChange
  exact debounceEffect_debounceInv _ _ (fun f hf => hs f hf)

theorem clearFilters_debounceInv (s : State) (hs : DebounceInv s) :
    DebounceInv (clearFilters s) := by
  unfold clearFilters
  exact debounceEffect_debounceInv _ _ (fun f hf => hs f hf)

theorem stepCore_debounceInv (s : State) (e : Event) (hs : DebounceInv s) :
    DebounceInv (stepCore s e) := by
  have frame : ∀ {t : State}, t.filters = s.filters →
      (t.debounceTimer = s.debounceTimer ∨ t.debounceTimer = none) → DebounceInv t :=
    fun hf ht => DebounceInv.of_frame hf ht hs
  have fetch : ∀ (u : State) (b : Bool) (cf : Option Filters), u.filters = s.filters →
      (u.debounceTimer = s.debounceTimer ∨ u.debounceTimer = none) →
      DebounceInv (fetchMappings u b cf) := by
    intro u b cf hf ht
    apply frame
    · rw [fetchMappings_filters]; exact hf
    · rw [(fetchMappings_timers u b cf).1]; exact ht
  cases e with
  | urlChange p =>
    simp only [stepCore]; split_ifs
    · unfold urlSyncEffect
      split
      · split_ifs
        · exact setMappingType_debounceInv s _ hs
        · exact hs
      · exact hs
    · exact hs
  | clickCategory t =>
    simp only [stepCore]; split_ifs
    · exact setMappingType_debounceInv s t hs
    · exact hs
  | filterChange n v =>
    simp only [stepCore]; split_ifs
    · exact handleFilterChange_debounceInv s n v hs
    · exact hs
  | applyFilters =>
    simp only [stepCore]; split_ifs
    · unfold applyFilters
      split_ifs
      · exact hs
      · exact frame rfl (Or.inl rfl)
    · exact hs
  | clearFilters =>
    simp only [stepCore]; split_ifs
    · exact clearFilters_debounceInv s hs
    · exact hs
  | loadMore =>
    simp only [stepCore]; unfold loadMoreData; split_ifs
    · exact hs
    · exact fetch s true none rfl (Or.inl rfl)
  | retryClick =>
    simp only [stepCore]; unfold retryClick; split_ifs
    · exact fetch _ false none rfl (Or.inl rfl)
    · exact hs
  | fireLoadTimer =>
    simp only [stepCore]
    split
    · rename_i t _
      unfold loadTimerCallback
      cases t with
      | initial =>
        dsimp only
        split_ifs
        · exact fetch _ false none rfl (Or.inl rfl)
        · exact frame rfl (Or.inl rfl)
      | changed => exact fetch _ false none rfl (Or.inl rfl)
    · exact hs
  | fireDebounce =>
    simp only [stepCore]
    split
    · unfold debounceCallback
      split_ifs
      · exact fetch _ false _ rfl (Or.inr rfl)
      · exact frame rfl (Or.inr rfl)
    · exact hs
  | fireApplyTimer =>
    simp only [stepCore]; unfold applyFiltersTimer; split_ifs
    · exact fetch _ false _ rfl (Or.inl rfl)
    · exact hs
  | fireClearTimer =>
    simp only [stepCore]; unfold clearFiltersTimer; split_ifs
    · exact fetch _ false _ rfl (Or.inl rfl)
    · exact hs
  | settle id o =>
    simp only [stepCore]
    unfold settle
    split
    · exact hs
    · apply frame
      · rw [(fetchMappingsSettle_filters _ _ _).1]
      · rw [(fetchMappingsSettle_filters _ _ _).2]; exact Or.inl rfl
  | unmount =>
    simp only [stepCore]; unfold unmount; split_ifs
    · exact frame rfl (Or.inr rfl)
    · exact hs

/-- Every reachable state has the closure of its auto-apply timer in step
with the current non-text filters. -/
theorem reachable_debounceInv {s : State} (hs : Reachable s) : DebounceInv s := by
  induction hs with
  | mount p =>
    intro f hf
    simp [mount, loadEffect, resetEffect, initialRender] at hf
  | step e _ ih =>
    apply DebounceInv.of_frame _ _ (stepCore_debounceInv _ e ih)
    · unfold step syncOffsetRef; split_ifs <;> rfl
    · unfold step syncOffsetRef; split_ifs <;> exact Or.inl rfl

theorem hasActiveFilters_iff (f : Filters) :
    hasActiveFilters f = true ↔
      (trimIsEmpty f.subject = false ∨ trimIsEmpty f.source_section = false ∨
        trimIsEmpty f.target_section = false) := by
  unfold hasActiveFilters Filters.entries
  have h : ∀ x : String, (x != "" && !trimIsEmpty x) = !trimIsEmpty x := by
    intro x
    by_cases hx : x = ""
    · subst hx; rfl
    · simp [hx]
  simp [h]

theorem hasActiveFilters_congr {f g : Filters} (h : sameNonText f g) :
    hasActiveFilters f = hasActiveFilters g := by
  obtain ⟨h1, h2, h3⟩ := h
  have hf := hasActiveFilters_iff f
  have hg := hasActiveFilters_iff g
  rw [h1, h2, h3] at hf
  cases hv : hasActiveFilters f <;> cases hw : hasActiveFilters g <;> simp_all

theorem fetchMappings_initialMount (s : State) (b : Bool) (cf : Option Filters) :
    (fetchMappings s b cf).isInitialMountRef = s.isInitialMountRef := by
  unfold fetchMappings; split_ifs <;> rfl

theorem fetchMappingsSettle_initialMount (s : State) (r : Request) (o : Outcome) :
    (fetchMappingsSettle s r o).1.isInitialMountRef = s.isInitialMountRef := by
  have hc : ∀ e, (catchBlock s r e).1.isInitialMountRef = s.isInitialMountRef := by
    intro e
    unfold catchBlock finallyBlock
    by_cases hm : s.mounted = true
    · cases e <;> simp [hm]
    · simp only [Bool.not_eq_true] at hm
      simp [hm]
  cases o with
  | rejected e => exact hc e
  | resolved data =>
    cases data with
    | prim p => exact hc _
    | array xs =>
      unfold fetchMappingsSettle onResolved finallyBlock
      by_cases hm : s.mounted = true
      · simp [hm]
      · simp only [Bool.not_eq_true] at hm
        simp [hm]
    | object fields =>
      unfold fetchMappingsSettle onResolved finallyBlock
      by_cases hm : s.mounted = true
      · simp [hm]
      · simp only [Bool.not_eq_true] at hm
        simp [hm]

theorem debounceEffect_initialMount (prev : Filters) (s : State) :
    (debounceEffect prev s).isInitialMountRef = s.isInitialMountRef := by
  unfold debounceEffect; split_ifs <;> rfl

theorem setMappingType_initialMount (s : State) (t : String)
    (h : s.isInitialMountRef = false) : (setMappingType s t).isInitialMountRef = false := by
  unfold setMappingType
  split_ifs
  · exact h
  · rw [debounceEffect_initialMount]
    unfold loadEffect resetEffect
    dsimp only
    split_ifs <;> simp [h]

theorem stepCore_initialMount (s : State) (e : Event) (h : s.isInitialMountRef = false) :
    (stepCore s e).isInitialMountRef = false := by
  cases e with
  | urlChange p =>
    simp only [stepCore]; split_ifs
    · unfold urlSyncEffect
      split
      · split_ifs
        · exact setMappingType_initialMount s _ h
        · exact h
      · exact h
    · exact h
  | clickCategory t =>
    simp only [stepCore]; split_ifs
    · exact setMappingType_initialMount s t h
    · exact h
  | filterChange n v =>
    simp only [stepCore]; split_ifs
    · unfold handleFilterChange; rw [debounceEffect_initialMount]; exact h
    · exact h
  | applyFilters =>
    simp only [stepCore]; split_ifs
    · unfold applyFilters; split_ifs <;> exact h
    · exact h
  | clearFilters =>
    simp only [stepCore]; split_ifs
    · unfold clearFilters; rw [debounceEffect_initialMount]; exact h
    · exact h
  | loadMore =>
    simp only [stepCore]; unfold loadMoreData; split_ifs
    · exact h
    · rw [fetchMappings_initialMount]; exact h
  | retryClick =>
    simp only [stepCore]; unfold retryClick; split_ifs
    · rw [fetchMappings_initialMount]; exact h
    · exact h
  | fireLoadTimer =>
    simp only [stepCore]
    split
    · rename_i t _
      unfold loadTimerCallback
      cases t with
      | initial =>
        dsimp only
        split_ifs
        · rw [fetchMappings_initialMount]; exact h
        · exact h
      | changed => dsimp only; rw [fetchMappings_initialMount]; exact h
    · exact h
  | fireDebounce =>
    simp only [stepCore]
    split
    · unfold debounceCallback
      split_ifs
      · dsimp only; rw [fetchMappings_initialMount]; exact h
      · exact h
    · exact h
  | fireApplyTimer =>
    simp only [stepCore]; unfold applyFiltersTimer; split_ifs
    · rw [fetchMappings_initialMount]; exact h
    · exact h
  | fireClearTimer =>
    simp only [stepCore]; unfold clearFiltersTimer; split_ifs
    · rw [fetchMappings_initialMount]; exact h
    · exact h
  | settle id o =>
    simp only [stepCore]
    unfold settle
    split
    · exact h
    · rw [fetchMappingsSettle_initialMount]; exact h
  | unmount =>
    simp only [stepCore]; unfold unmount; split_ifs
    · exact h
    · exact h

/-- In every reachable state the mount has happened: `isInitialMountRef` is
false. -/
theorem reachable_initialMount {s : State} (hs : Reachable s) :
    s.isInitialMountRef = false := by
  induction hs with
  | mount p => simp [mount, loadEffect, resetEffect, initialRender]
  | step e _ ih =>
    have := stepCore_initialMount _ e ih
    unfold step syncOffsetRef
    split_ifs
    · exact this
    · exact this

theorem step_fireDebounce_inflight (s : State) (f : Filters) (ht : s.debounceTimer = some f) :
    (step s Event.fireDebounce).inflight =
      (debounceCallback { s with debounceTimer := none } f).inflight ∧
    (step s Event.fireDebounce).debounceTimer =
      (debounceCallback { s with debounceTimer := none } f).debounceTimer := by
  have hcore : stepCore s Event.fireDebounce =
      debounceCallback { s with debounceTimer := none } f := by
    simp only [stepCore, ht]
  unfold step
  rw [hcore]
  unfold syncOffsetRef
  split_ifs <;> exact ⟨rfl, rfl⟩

theorem debounceCallback_inflight (s : State) (f : Filters)
    (h : (debounceCallback s f).inflight ≠ s.inflight) : hasActiveFilters f = true := by
  unfold debounceCallback at h
  cases hf : hasActiveFilters f
  · simp [hf] at h
  · rfl

theorem step_filterChange_subject (s : State) (v : String) (hm : s.mounted = true)
    (hf : s.isFetchingRef = false) (hi : s.isInitialMountRef = false)
    (hne : s.filters.subject ≠ v) :
    (step s (Event.filterChange FilterName.subject v)).debounceTimer =
      some (s.filters.set FilterName.subject v) ∧
    (step s (Event.filterChange FilterName.subject v)).filtersRef =
      s.filters.set FilterName.subject v ∧
    (step s (Event.filterChange FilterName.subject v)).mounted = true ∧
    (step s (Event.filterChange FilterName.subject v)).isFetchingRef = false ∧
    (step s (Event.filterChange FilterName.subject v)).inflight = s.inflight ∧
    (step s (Event.filterChange FilterName.subject v)).issuedCount = s.issuedCount ∧
    (step s (Event.filterChange FilterName.subject v)).mappingType = s.mappingType := by
  have hne2 : ¬ v = s.filters.subject := fun h => hne h.symm
  have hcore : stepCore s (Event.filterChange FilterName.subject v) =
      { s with filters := s.filters.set FilterName.subject v,
               filtersRef := s.filters.set FilterName.subject v,
               debounceTimer := some (s.filters.set FilterName.subject v) } := by
    simp [stepCore, handleFilterChange, debounceEffect, Filters.set, hm, hf, hi, hne2]
  unfold step
  rw [hcore]
  unfold syncOffsetRef
  simp [hm, hf]

theorem step_filterChange_subject_busy (s : State) (v : String) (hm : s.mounted = true)
    (hf : s.isFetchingRef = true) (hi : s.isInitialMountRef = false)
    (hne : s.filters.subject ≠ v) :
    (step s (Event.filterChange FilterName.subject v)).filters.subject = v ∧
    (step s (Event.filterChange FilterName.subject v)).debounceTimer = none ∧
    (step s (Event.filterChange FilterName.subject v)).loadTimer = s.loadTimer ∧
    (step s (Event.filterChange FilterName.subject v)).applyTimers = s.applyTimers ∧
    (step s (Event.filterChange FilterName.subject v)).clearTimers = s.clearTimers ∧
    (step s (Event.filterChange FilterName.subject v)).inflight = s.inflight := by
  have hne2 : ¬ v = s.filters.subject := fun h => hne h.symm
  have hcore : stepCore s (Event.filterChange FilterName.subject v) =
      { s with filters := s.filters.set FilterName.subject v,
               filtersRef := s.filters.set FilterName.subject v,
               debounceTimer := none } := by
    simp [stepCore, handleFilterChange, debounceEffect, Filters.set, hm, hf, hi, hne2]
  unfold step
  rw [hcore]
  unfold syncOffsetRef
  simp [Filters.set]

/-- C20 as stated fails: while the mount's fresh fetch is in flight the
subject is set to `theft`; the edit starts no timer, the only request is the
one of the mount, without a `subject` key, and after it has resolved nothing
is pending and no further request has been sent: the edit is never
auto-applied. -/
theorem subject_edit_during_fetch_not_applied :
    (run (mount none) [Event.fireLoadTimer]).isFetchingRef = true ∧
    (run (mount none)
      [Event.fireLoadTimer, Event.filterChange FilterName.subject "theft"]).filters.subject =
      "theft" ∧
    (run (mount none)
      [Event.fireLoadTimer, Event.filterChange FilterName.subject "theft"]).debounceTimer =
      none ∧
    (run (mount none)
      [Event.fireLoadTimer, Event.filterChange FilterName.subject "theft"]).inflight.map
        (fun r => (r.id, r.params)) =
      [(0, [("limit", Prim.num 50), ("offset", Prim.num 0),
            ("mapping_type", Prim.str "bns_ipc")])] ∧
    (run (mount none) editDuringFirstLoad).log = [Obs.issued 0 false, Obs.applied 0 false] ∧
    (run (mount none) editDuringFirstLoad).issuedCount = 1 ∧
    (run (mount none) editDuringFirstLoad).inflight = [] ∧
    (run (mount none) editDuringFirstLoad).debounceTimer = none ∧
    (run (mount none) editDuringFirstLoad).loadTimer = none ∧
    (run (mount none) editDuringFirstLoad).applyTimers = 0 ∧
    (run (mount none) editDuringFirstLoad).clearTimers = 0 ∧
    (run (mount none) editDuringFirstLoad).filters.subject = "theft" ∧
    (run (mount none) editDuringFirstLoad).mappings = [sampleRecord 1, sampleRecord 2] := by
  decide

/-- C20 (amended): in every reachable state the firing of the 800 ms timer
sends a request only if one of the non-text filters (subject, source section,
target section) is not blank; an edit of the search text starts or clears no
timer and sends no request.  In the mounted view with no fresh fetch in
flight, changing the subject to `theft` and letting the timer fire sends
exactly one request, a fresh fetch at offset 0 whose `params` hold `subject` =
`theft`, and no `search` key when the search text is blank, and leaves no
timer pending.  While a fresh fetch is in flight, changing the subject starts
no timer and sends no request. -/
theorem auto_apply_rule (s : State) (v : String) (hs : Reachable s) :
    ((step s Event.fireDebounce).inflight ≠ s.inflight →
      (trimIsEmpty s.filters.subject = false ∨ trimIsEmpty s.filters.source_section = false ∨
        trimIsEmpty s.filters.target_section = false)) ∧
    ((step s (Event.filterChange FilterName.search v)).debounceTimer = s.debounceTimer ∧
      (step s (Event.filterChange FilterName.search v)).loadTimer = s.loadTimer ∧
      (step s (Event.filterChange FilterName.search v)).applyTimers = s.applyTimers ∧
      (step s (Event.filterChange FilterName.search v)).clearTimers = s.clearTimers ∧
      (step s (Event.filterChange FilterName.search v)).inflight = s.inflight) ∧
    (s.mounted = true → s.isFetchingRef = false → s.filters.subject ≠ "theft" →
      (run s [Event.filterChange FilterName.subject "theft", Event.fireDebounce]).inflight =
        s.inflight ++
          [{ id := s.issuedCount, isLoadMore := false, offset := 0, limit := pageSize,
             params := buildParams s.mappingType 0 (s.filters.set FilterName.subject "theft") }] ∧
      (buildParams s.mappingType 0 (s.filters.set FilterName.subject "theft")).lookup "subject" =
        some (Prim.str "theft") ∧
      (trimIsEmpty s.filters.search = true →
        (buildParams s.mappingType 0 (s.filters.set FilterName.subject "theft")).lookup "search" =
          none) ∧
      (run s [Event.filterChange FilterName.subject "theft", Event.fireDebounce]).debounceTimer =
        none) ∧
    (s.mounted = true → s.isFetchingRef = true → s.filters.subject ≠ v →
      (step s (Event.filterChange FilterName.subject v)).filters.subject = v ∧
      (step s (Event.filterChange FilterName.subject v)).debounceTimer = none ∧
      (step s (Event.filterChange FilterName.subject v)).loadTimer = s.loadTimer ∧
      (step s (Event.filterChange FilterName.subject v)).applyTimers = s.applyTimers ∧
      (step s (Event.filterChange FilterName.subject v)).clearTimers = s.clearTimers ∧
      (step s (Event.filterChange FilterName.subject v)).inflight = s.inflight) := by
  refine ⟨?_, ?_, ?_, ?_⟩
  · intro hne
    cases ht : s.debounceTimer with
    | none =>
      exfalso
      apply hne
      unfold step syncOffsetRef
      simp only [stepCore, ht]
      split_ifs <;> rfl
    | some f =>
      rw [(step_fireDebounce_inflight s f ht).1] at hne
      have hact := debounceCallback_inflight _ f hne
      rw [hasActiveFilters_congr (reachable_debounceInv hs f ht)] at hact
      exact (hasActiveFilters_iff s.filters).mp hact
  · unfold step syncOffsetRef
    simp only [stepCore]
    by_cases hm : s.mounted = true
    · simp [hm, handleFilterChange, debounceEffect, Filters.set]
    · simp [hm]
  · intro hm hf hne
    have hi := reachable_initialMount hs
    obtain ⟨a1, a2, a3, a4, a5, a6, a7⟩ := step_filterChange_subject s "theft" hm hf hi hne
    have hrun : run s [Event.filterChange FilterName.subject "theft", Event.fireDebounce] =
        step (step s (Event.filterChange FilterName.subject "theft")) Event.fireDebounce := rfl
    have hact : hasActiveFilters (s.filters.set FilterName.subject "theft") = true := by
      rw [hasActiveFilters_iff]
      left
      simp only [Filters.set]
      decide
    have hcb : debounceCallback
        { step s (Event.filterChange FilterName.subject "theft") with debounceTimer := none }
        (s.filters.set FilterName.subject "theft") =
        fetchMappings
          { step s (Event.filterChange FilterName.subject "theft") with
            debounceTimer := none, mappings := [], hasMore := true, offset := 0, offsetRef := 0,
            error := none }
          false (some (s.filters.set FilterName.subject "theft")) := by
      unfold debounceCallback
      simp [hact, a4, a2]
    obtain ⟨b1, b2⟩ := step_fireDebounce_inflight _ _ a1
    refine ⟨?_, ?_, ?_, ?_⟩
    · rw [hrun, b1, hcb, fetchMappings_issue _ false _ (by exact a3) (Or.inl (by exact a4))]
      simp [requestOf, a5, a6, a7]
    · rw [show ("subject" : String) = FilterName.subject.key from rfl, buildParams_lookup]
      simp only [Filters.get, Filters.set]
      decide
    · intro hsearch
      rw [show ("search" : String) = FilterName.search.key from rfl, buildParams_lookup]
      simp only [Filters.get, Filters.set]
      rw [hsearch]
      rfl
    · rw [hrun, b2, hcb, (fetchMappings_timers _ _ _).1]
  · intro hm hf hne
    exact step_filterChange_subject_busy s v hm hf (reachable_initialMount hs) hne

/-- An instance: after the first page, setting the subject to `theft` and
letting the timer fire sends one request. -/
theorem auto_apply_rule_witness :
    (run (mount none) firstPageLoaded).mounted = true ∧
    (run (mount none) firstPageLoaded).isFetchingRef = false ∧
    (run (run (mount none) firstPageLoaded)
      [Event.filterChange FilterName.subject "theft", Event.fireDebounce]).debounceTimer =
      none :=
  ⟨by decide, by decide,
   ((auto_apply_rule (run (mount none) firstPageLoaded) ""
      (reachable_run (Reachable.mount none) firstPageLoaded)).2.2.1
      (by decide) (by decide) (by decide)).2.2.2⟩

/-! ### Clearing the filters -/

/-- C19 as stated fails: in `clearDroppedRun` "Clear All Filters" is clicked
with the search text set while the fresh fetch 2 (sent with
`search` = `theft`) is in flight; the filters are emptied, but the call of
`fetchMappings` in the timer is dropped, no request without filter
parameters is sent, and the list ends up holding the record fetched for
`theft`. -/
theorem clearDroppedRun_sends_no_request :
    runUI (mount none) clearDroppedRun = some (run (mount none) clearDroppedRun) ∧
    (run (mount none) (firstPageLoaded ++
        [Event.loadMore, Event.filterChange FilterName.search "theft", Event.applyFilters,
         Event.fireApplyTimer,
         Event.settle 1 (Outcome.resolved (samplePage [] true))])).filters.search = "theft" ∧
    (run (mount none) clearDuringFreshRun).filters = emptyFilters ∧
    (run (mount none) clearDuringFreshRun).clearTimers = 1 ∧
    (run (mount none) clearDuringFreshRun).inflight.map (fun r => (r.id, r.params)) =
      [(2, [("limit", Prim.num 50), ("offset", Prim.num 0),
            ("mapping_type", Prim.str "bns_ipc"), ("search", Prim.str "theft")])] ∧
    (run (mount none) (clearDuringFreshRun ++ [Event.fireClearTimer])).inflight =
      (run (mount none) clearDuringFreshRun).inflight ∧
    (run (mount none) clearDroppedRun).log =
      [Obs.issued 0 false, Obs.applied 0 false, Obs.issued 1 true, Obs.issued 2 false,
       Obs.applied 1 true, Obs.applied 2 false] ∧
    (run (mount none) clearDroppedRun).inflight = [] ∧
    (run (mount none) clearDroppedRun).clearTimers = 0 ∧
    (run (mount none) clearDroppedRun).debounceTimer = none ∧
    (run (mount none) clearDroppedRun).filters = emptyFilters ∧
    (run (mount none) clearDroppedRun).mappings = [sampleRecord 9] := by
  decide

theorem step_clearFilters_fields (s : State) (hm : s.mounted = true) :
    (step s Event.clearFilters).filters = emptyFilters ∧
    (step s Event.clearFilters).filtersRef = emptyFilters ∧
    (step s Event.clearFilters).mappings = [] ∧
    (step s Event.clearFilters).offset = 0 ∧
    (step s Event.clearFilters).offsetRef = 0 ∧
    (step s Event.clearFilters).hasMore = true ∧
    (step s Event.clearFilters).inflight = s.inflight ∧
    (step s Event.clearFilters).clearTimers = s.clearTimers + 1 ∧
    (step s Event.clearFilters).mounted = true ∧
    (step s Event.clearFilters).isFetchingRef = s.isFetchingRef ∧
    (step s Event.clearFilters).issuedCount = s.issuedCount ∧
    (step s Event.clearFilters).mappingType = s.mappingType := by
  unfold step syncOffsetRef
  simp only [stepCore, hm, if_true]
  unfold clearFilters debounceEffect
  dsimp only
  split_ifs <;> simp [hm]

theorem step_fireClearTimer_inflight (s : State) (ht : 0 < s.clearTimers) :
    (step s Event.fireClearTimer).inflight =
      (fetchMappings { s with clearTimers := s.clearTimers - 1 } false none).inflight := by
  unfold step
  rw [syncOffsetRef_inflight]
  simp only [stepCore, ht, if_true, clearFiltersTimer]

theorem buildParams_emptyFilters (mt : String) (off : Nat) :
    buildParams mt off emptyFilters =
      [("limit", Prim.num 50), ("offset", Prim.num off), ("mapping_type", Prim.str mt)] := by
  rw [buildParams_eq]
  have h : filterParams emptyFilters = [] := by decide
  rw [h]
  rfl

/-- C19 (amended): in the mounted view `clearFilters` sets all four filter
values to the empty string, empties the list, resets `offset` to 0 and starts
its 100 ms timer without sending a request; an auto-apply timer it leaves
pending does nothing when it fires.  If no fresh fetch is in flight, the
timer of `clearFilters` then sends exactly one request, a fresh fetch whose
`params` hold only `limit`, `offset` 0 and `mapping_type`; if a fresh fetch
is in flight, the timer sends nothing. -/
theorem clearFilters_then_timer (s : State) (hs : Reachable s) (hm : s.mounted = true) :
    ((step s Event.clearFilters).filters =
        { search := "", subject := "", source_section := "", target_section := "" } ∧
      (step s Event.clearFilters).mappings = [] ∧
      (step s Event.clearFilters).offset = 0 ∧
      (step s Event.clearFilters).inflight = s.inflight ∧
      (step s Event.clearFilters).clearTimers = s.clearTimers + 1) ∧
    (∀ f t, (step s Event.clearFilters).debounceTimer = some f → debounceCallback t f = t) ∧
    (s.isFetchingRef = false →
      (run s [Event.clearFilters, Event.fireClearTimer]).inflight =
        s.inflight ++
          [{ id := s.issuedCount, isLoadMore := false, offset := 0, limit := pageSize,
             params := [("limit", Prim.num 50), ("offset", Prim.num 0),
                        ("mapping_type", Prim.str s.mappingType)] }]) ∧
    (s.isFetchingRef = true →
      (run s [Event.clearFilters, Event.fireClearTimer]).inflight = s.inflight) := by
  obtain ⟨c1, c2, c3, c4, c5, c6, c7, c8, c9, c10, c11, c12⟩ := step_clearFilters_fields s hm
  have hrun : run s [Event.clearFilters, Event.fireClearTimer] =
      step (step s Event.clearFilters) Event.fireClearTimer := rfl
  have hpos : 0 < (step s Event.clearFilters).clearTimers := by rw [c8]; exact Nat.succ_pos _
  refine ⟨⟨c1, c3, c4, c7, c8⟩, ?_, ?_, ?_⟩
  · intro f t hf
    have hinv := reachable_debounceInv (Reachable.step Event.clearFilters hs) f hf
    rw [c1] at hinv
    have hact : hasActiveFilters f = false := by
      rw [hasActiveFilters_congr hinv]
      decide
    unfold debounceCallback
    simp [hact]
  · intro hf
    rw [hrun, step_fireClearTimer_inflight _ hpos,
      fetchMappings_issue _ false none (by exact c9) (Or.inl (by rw [← hf]; exact c10))]
    simp [requestOf, c7, c11, c12, c2, buildParams_emptyFilters]
  · intro hf
    rw [hrun, step_fireClearTimer_inflight _ hpos]
    have hdrop : ∀ u : State, u.isFetchingRef = true → fetchMappings u false none = u := by
      intro u hu
      unfold fetchMappings
      simp [hu]
    rw [hdrop _ (by rw [← hf]; exact c10)]
    exact c7

/-- An instance: after the first page `clearFilters` and its timer send one
request. -/
theorem clearFilters_then_timer_witness :
    (run (mount none) firstPageLoaded).mounted = true ∧
    (step (run (mount none) firstPageLoaded) Event.clearFilters).mappings = [] :=
  ⟨by decide,
   (clearFilters_then_timer (run (mount none) firstPageLoaded)
      (reachable_run (Reachable.mount none) firstPageLoaded) (by decide)).1.2.1⟩

/-! ### The fetch after a category change -/

theorem step_fireLoadTimer_changed (u : State) (h : u.loadTimer = some LoadTimer.changed) :
    (step u Event.fireLoadTimer).inflight =
      (fetchMappings { u with loadTimer := none } false none).inflight := by
  unfold step
  rw [syncOffsetRef_inflight]
  simp only [stepCore, h, loadTimerCallback]

/-- C17 (amended): in the mounted view, the click on a category button for
a mapping type different from the current one sends no request by itself.
When no fresh fetch is in flight at that moment (a load-more may be), it
starts the timer of the load effect, and the timer firing next sends exactly
one request: a fresh fetch at offset 0 with `mapping_type` = the new type and
no filter parameter.  When a fresh fetch is in flight at that moment, no
timer is started and nothing is sent for the new type. -/
theorem category_change_fetch_gate (s : State) (t : String) (hs : Reachable s)
    (hm : s.mounted = true) (hv : validTypes.contains t = true) (ht : t ≠ s.mappingType) :
    (step s (Event.clickCategory t)).inflight = s.inflight ∧
    (s.isFetchingRef = false →
      (run s [Event.clickCategory t, Event.fireLoadTimer]).inflight =
        s.inflight ++
          [{ id := s.issuedCount, isLoadMore := false, offset := 0, limit := pageSize,
             params := [("limit", Prim.num 50), ("offset", Prim.num 0),
                        ("mapping_type", Prim.str t)] }]) ∧
    (s.isFetchingRef = true →
      (step s (Event.clickCategory t)).loadTimer = none ∧
      (run s [Event.clickCategory t, Event.fireLoadTimer]).inflight = s.inflight) := by
  have hi := reachable_initialMount hs
  have hc : (s.mounted && validTypes.contains t) = true := by rw [hm, hv]; rfl
  have hcore : stepCore s (Event.clickCategory t) = setMappingType s t := by
    simp only [stepCore, hc, if_true]
  obtain ⟨h1, _, _, _, _, _, _, h8, h9, h10, h11, h12⟩ := setMappingType_fields s t ht
  have htimer : (setMappingType s t).loadTimer =
      (if s.isFetchingRef then none else some LoadTimer.changed) := by
    unfold setMappingType
    rw [if_neg ht]
    unfold debounceEffect loadEffect resetEffect
    dsimp only
    split_ifs <;> simp_all
  have hstep : (step s (Event.clickCategory t)).loadTimer =
        (if s.isFetchingRef then none else some LoadTimer.changed) ∧
      (step s (Event.clickCategory t)).mappingType = t ∧
      (step s (Event.clickCategory t)).filtersRef = emptyFilters ∧
      (step s (Event.clickCategory t)).inflight = s.inflight ∧
      (step s (Event.clickCategory t)).mounted = true ∧
      (step s (Event.clickCategory t)).isFetchingRef = s.isFetchingRef ∧
      (step s (Event.clickCategory t)).issuedCount = s.issuedCount := by
    unfold step
    rw [hcore]
    unfold syncOffsetRef
    by_cases ho : (setMappingType s t).offset = s.offset
    · rw [if_pos ho]; exact ⟨htimer, h1, h8, h9, h10.trans hm, h11, h12⟩
    · rw [if_neg ho]; exact ⟨htimer, h1, h8, h9, h10.trans hm, h11, h12⟩
  obtain ⟨g1, g2, g3, g4, g5, g6, g7⟩ := hstep
  have hrun : run s [Event.clickCategory t, Event.fireLoadTimer] =
      step (step s (Event.clickCategory t)) Event.fireLoadTimer := rfl
  refine ⟨g4, fun hf => ?_, fun hf => ?_⟩
  · rw [hf] at g1 g6
    rw [hrun, step_fireLoadTimer_changed _ (by simpa using g1),
      fetchMappings_issue _ false none (by exact g5) (Or.inl (by exact g6))]
    simp [requestOf, g2, g3, g4, g7, buildParams_emptyFilters]
  · rw [hf] at g1
    have g1n : (step s (Event.clickCategory t)).loadTimer = none := by simpa using g1
    refine ⟨g1n, ?_⟩
    rw [hrun]
    have hnone : step (step s (Event.clickCategory t)) Event.fireLoadTimer =
        step s (Event.clickCategory t) := by
      generalize step s (Event.clickCategory t) = u at g1n
      unfold step syncOffsetRef
      simp [stepCore, g1n]
    rw [hnone]
    exact g4

/-- An instance: after the first page the click on `bsa_iea` and the timer
send one request for `bsa_iea`. -/
theorem category_change_fetch_gate_witness :
    (run (mount none) firstPageLoaded).mounted = true ∧
    "bsa_iea" ≠ (run (mount none) firstPageLoaded).mappingType ∧
    (step (run (mount none) firstPageLoaded) (Event.clickCategory "bsa_iea")).inflight =
      (run (mount none) firstPageLoaded).inflight :=
  ⟨by decide, by decide,
   (category_change_fetch_gate (run (mount none) firstPageLoaded) "bsa_iea"
      (reachable_run (Reachable.mount none) firstPageLoaded) (by decide) (by decide)
      (by decide)).1⟩

/-! ### Error classification and cleanup -/

/-- C21: for every failure whose message contains `401`, whatever else the
message holds, the shown message is the one that begins with
"Authentication required", and in the mounted view the failure of a fetch of
either kind sets `error` to it; the same holds after the task in which the
request in flight fails. -/
theorem auth_required_for_401 (s : State) (r : Request) (msg : String)
    (hm : s.mounted = true) (h401 : jsIncludes msg "401" = true) :
    classifyError msg = "Authentication required. Please log in to access mappings." ∧
    "Authentication required".data.isPrefixOf (classifyError msg).data = true ∧
    (fetchMappingsSettle s r (Outcome.rejected (Rejection.error msg))).1.error =
      some "Authentication required. Please log in to access mappings." ∧
    (s.inflight.find? (fun q => q.id == r.id) = some r →
      (step s (Event.settle r.id (Outcome.rejected (Rejection.error msg)))).error =
        some "Authentication required. Please log in to access mappings.") := by
  have hc : classifyError msg = "Authentication required. Please log in to access mappings." := by
    unfold classifyError
    simp [h401]
  have hset : ∀ u : State, u.mounted = true →
      (fetchMappingsSettle u r (Outcome.rejected (Rejection.error msg))).1.error =
        some "Authentication required. Please log in to access mappings." := by
    intro u hu
    simp [fetchMappingsSettle, catchBlock, hu, finallyBlock_error, hc]
  refine ⟨hc, ?_, hset s hm, fun hfind => ?_⟩
  · rw [hc]; decide
  · have hk := hset { s with inflight := s.inflight.filter (fun q => q.id != r.id) } hm
    have hcore : stepCore s (Event.settle r.id (Outcome.rejected (Rejection.error msg))) =
        (fetchMappingsSettle { s with inflight := s.inflight.filter (fun q => q.id != r.id) } r
          (Outcome.rejected (Rejection.error msg))).1 := by
      simp only [stepCore, settle, hfind]
    unfold step
    rw [hcore]
    unfold syncOffsetRef
    split_ifs
    · exact hk
    · exact hk

/-- An instance: a load-more after the first page fails with an HTTP 401
message. -/
theorem auth_required_for_401_witness :
    (run (mount none) (firstPageLoaded ++ [Event.loadMore])).mounted = true ∧
    jsIncludes "HTTP error! status: 401" "401" = true ∧
    (fetchMappingsSettle (run (mount none) (firstPageLoaded ++ [Event.loadMore]))
      (requestOf (run (mount none) firstPageLoaded) true emptyFilters)
      (Outcome.rejected (Rejection.error "HTTP error! status: 401"))).1.error =
      some "Authentication required. Please log in to access mappings." :=
  ⟨by decide, by decide,
   (auth_required_for_401 (run (mount none) (firstPageLoaded ++ [Event.loadMore]))
      (requestOf (run (mount none) firstPageLoaded) true emptyFilters)
      "HTTP error! status: 401" (by decide) (by decide)).2.2.1⟩

theorem finallyBlock_flags (s : State) (b : Bool) (hm : s.mounted = true) :
    (finallyBlock s b).loading = false ∧ (finallyBlock s b).isSearching = false ∧
    (b = false → (finallyBlock s b).isFetchingRef = false) := by
  unfold finallyBlock
  cases b <;> simp [hm]

theorem fetchMappingsSettle_flags (s : State) (r : Request) (o : Outcome)
    (hm : s.mounted = true) :
    (fetchMappingsSettle s r o).1.loading = false ∧
    (fetchMappingsSettle s r o).1.isSearching = false ∧
    (r.isLoadMore = false → (fetchMappingsSettle s r o).1.isFetchingRef = false) := by
  have hc : ∀ e, (catchBlock s r e).1.loading = false ∧
      (catchBlock s r e).1.isSearching = false ∧
      (r.isLoadMore = false → (catchBlock s r e).1.isFetchingRef = false) := by
    intro e
    unfold catchBlock
    cases e with
    | error msg =>
      simp only [hm, Bool.not_true, Bool.false_eq_true, if_false]
      exact finallyBlock_flags _ _ rfl
    | noMessage =>
      simp only [hm, Bool.not_true, Bool.false_eq_true, if_false]
      exact finallyBlock_flags _ _ hm
    | nullish =>
      simp only [hm, Bool.not_true, Bool.false_eq_true, if_false]
      exact finallyBlock_flags _ _ hm
  cases o with
  | rejected e => exact hc e
  | resolved data =>
    cases data with
    | prim p => exact hc _
    | array xs =>
      simp only [fetchMappingsSettle, onResolved, hm, Bool.not_true, Bool.false_eq_true, if_false]
      exact finallyBlock_flags _ _ rfl
    | object fields =>
      simp only [fetchMappingsSettle, onResolved, hm, Bool.not_true, Bool.false_eq_true, if_false]
      exact finallyBlock_flags _ _ rfl

/-- C22: in the mounted view, whatever way the remote call of a request
settles (a response, a value that is not an object, a rejection with or
without message), `loading` and `isSearching` are false afterwards, and
`isFetchingRef` is false after a fresh fetch; the same holds after the task
that settles a request in flight. -/
theorem flags_cleared_after_settle (s : State) (r : Request) (o : Outcome)
    (hm : s.mounted = true) :
    ((fetchMappingsSettle s r o).1.loading = false ∧
      (fetchMappingsSettle s r o).1.isSearching = false ∧
      (r.isLoadMore = false → (fetchMappingsSettle s r o).1.isFetchingRef = false)) ∧
    (s.inflight.find? (fun q => q.id == r.id) = some r →
      (step s (Event.settle r.id o)).loading = false ∧
      (step s (Event.settle r.id o)).isSearching = false ∧
      (r.isLoadMore = false → (step s (Event.settle r.id o)).isFetchingRef = false)) := by
  refine ⟨fetchMappingsSettle_flags s r o hm, fun hfind => ?_⟩
  have hk := fetchMappingsSettle_flags
    { s with inflight := s.inflight.filter (fun q => q.id != r.id) } r o hm
  have hcore : stepCore s (Event.settle r.id o) =
      (fetchMappingsSettle { s with inflight := s.inflight.filter (fun q => q.id != r.id) } r
        o).1 := by
    simp only [stepCore, settle, hfind]
  unfold step
  rw [hcore]
  unfold syncOffsetRef
  by_cases ho : (fetchMappingsSettle
      { s with inflight := s.inflight.filter (fun q => q.id != r.id) } r o).1.offset = s.offset
  · rw [if_pos ho]; exact hk
  · rw [if_neg ho]; exact hk

/-- An instance: the mount's fresh fetch rejects with a value without
message; the flags are cleared all the same. -/
theorem flags_cleared_after_settle_witness :
    (run (mount none) [Event.fireLoadTimer]).mounted = true ∧
    (run (mount none) [Event.fireLoadTimer]).loading = true ∧
    (fetchMappingsSettle (run (mount none) [Event.fireLoadTimer])
      (requestOf (mount none) false emptyFilters)
      (Outcome.rejected Rejection.noMessage)).1.loading = false :=
  ⟨by decide, by decide,
   (flags_cleared_after_settle (run (mount none) [Event.fireLoadTimer])
      (requestOf (mount none) false emptyFilters) (Outcome.rejected Rejection.noMessage)
      (by decide)).1.1⟩

/-! ### The category in the URL -/

theorem getInitialMappingType_some (t : String) :
    getInitialMappingType (some t) = if t ∈ validTypes then t else "bns_ipc" := by
  have hne : ("" : String) ∉ validTypes := by decide
  by_cases hv : t ∈ validTypes
  · have h0 : t ≠ "" := fun h => hne (h ▸ hv)
    simp [getInitialMappingType, hv, h0]
  · simp [getInitialMappingType, hv]

/-- C23: for every result of `searchParams.get('type')`, the initial mapping
type is the parameter exactly when the parameter is one of the three valid
types, it is `bns_ipc` whenever the parameter is absent or not a valid type
(the empty string included), and it is always one of the three valid types;
the mounted component starts with it. -/
theorem getInitialMappingType_valid (p : Option String) :
    (∀ t, p = some t → (getInitialMappingType p = t ↔ t ∈ validTypes)) ∧
    ((∀ t, p = some t → t ∉ validTypes) → getInitialMappingType p = "bns_ipc") ∧
    getInitialMappingType p ∈ validTypes ∧
    validTypes = ["bns_ipc", "bsa_iea", "bnss_crpc"] ∧
    (mount p).mappingType = getInitialMappingType p := by
  have hdef : ("bns_ipc" : String) ∈ validTypes := by decide
  refine ⟨?_, ?_, ?_, rfl, ?_⟩
  · intro t ht
    subst ht
    rw [getInitialMappingType_some]
    by_cases hv : t ∈ validTypes
    · rw [if_pos hv]
      exact ⟨fun _ => hv, fun _ => rfl⟩
    · rw [if_neg hv]
      exact ⟨fun h => absurd (h ▸ hdef) hv, fun h => absurd h hv⟩
  · intro h
    cases p with
    | none => rfl
    | some t => rw [getInitialMappingType_some, if_neg (h t rfl)]
  · cases p with
    | none => exact hdef
    | some t =>
      rw [getInitialMappingType_some]
      by_cases hv : t ∈ validTypes
      · rw [if_pos hv]; exact hv
      · rw [if_neg hv]; exact hdef
  · unfold mount loadEffect resetEffect initialRender
    rfl

/-- Instances: `?type=bsa_iea` gives `bsa_iea`; an unknown type gives
`bns_ipc`. -/
theorem getInitialMappingType_valid_witness :
    getInitialMappingType (some "bsa_iea") = "bsa_iea" ∧
    getInitialMappingType (some "ipc") = "bns_ipc" :=
  ⟨((getInitialMappingType_valid (some "bsa_iea")).1 "bsa_iea" rfl).2 (by decide),
   (getInitialMappingType_valid (some "ipc")).2.1
     (fun t ht => by cases ht; decide)⟩

/-- C24: in the mounted view, when the URL changes and
`searchParams.get('type')` is `p`: if `p` is a valid type different from the
current one, the task is `setMappingType` with it and the mapping type becomes
`p`; in every other case (`p` absent, not a valid type, or equal to the current
type) the state after the task is the state before it, so the mapping type,
the list, `offset` and the filters are unchanged, no request is sent and no
timer is started. The mapping type therefore changes only to a valid `p`. -/
theorem urlChange_rule (s : State) (p : Option String) (hm : s.mounted = true) :
    (∀ t, p = some t → t ∈ validTypes → t ≠ s.mappingType →
      stepCore s (Event.urlChange p) = setMappingType s t ∧
      (step s (Event.urlChange p)).mappingType = t) ∧
    ((∀ t, p = some t → t ∈ validTypes → t = s.mappingType) →
      step s (Event.urlChange p) = s) ∧
    ((step s (Event.urlChange p)).mappingType ≠ s.mappingType →
      p = some (step s (Event.urlChange p)).mappingType ∧
      (step s (Event.urlChange p)).mappingType ∈ validTypes) := by
  have hne : ("" : String) ∉ validTypes := by decide
  have hchange : ∀ t, p = some t → t ∈ validTypes → t ≠ s.mappingType →
      stepCore s (Event.urlChange p) = setMappingType s t ∧
      (step s (Event.urlChange p)).mappingType = t := by
    intro t hp hv hd
    subst hp
    have h0 : t ≠ "" := fun h => hne (h ▸ hv)
    have hcore : stepCore s (Event.urlChange (some t)) = setMappingType s t := by
      simp [stepCore, urlSyncEffect, hm, hv, h0, hd]
    refine ⟨hcore, ?_⟩
    unfold step
    rw [hcore]
    unfold syncOffsetRef
    split_ifs
    · exact (setMappingType_fields s t hd).1
    · exact (setMappingType_fields s t hd).1
  have hsame : (∀ t, p = some t → t ∈ validTypes → t = s.mappingType) →
      step s (Event.urlChange p) = s := by
    intro h
    have hcore : stepCore s (Event.urlChange p) = s := by
      cases p with
      | none => simp [stepCore, urlSyncEffect]
      | some t =>
        by_cases hv : t ∈ validTypes
        · have := h t rfl hv
          simp [stepCore, urlSyncEffect, this]
        · simp [stepCore, urlSyncEffect, hv]
    unfold step
    rw [hcore]
    simp [syncOffsetRef]
  refine ⟨hchange, hsame, ?_⟩
  intro hdiff
  by_cases hall : ∀ t, p = some t → t ∈ validTypes → t = s.mappingType
  · exact absurd (by rw [hsame hall]) hdiff
  · push_neg at hall
    obtain ⟨t, hp, hv, hd⟩ := hall
    have := (hchange t hp hv hd).2
    rw [this]
    exact ⟨hp, hv⟩

/-- An instance: after the first page under `bns_ipc`, the URL changes to
`?type=bns_ipc`; nothing happens. -/
theorem urlChange_rule_witness :
    (run (mount none) firstPageLoaded).mounted = true ∧
    step (run (mount none) firstPageLoaded) (Event.urlChange (some "bns_ipc")) =
      run (mount none) firstPageLoaded :=
  ⟨by decide,
   (urlChange_rule (run (mount none) firstPageLoaded) (some "bns_ipc") (by decide)).2.1
     (fun t ht _ => by cases ht; decide)⟩

/-! ### The total count -/

/-- C27 as stated fails: the mount's fresh fetch resolves with a bare array of
two records; `hasMore` is true afterwards, and `totalCount` is 2, the length
of the list, not more. -/
theorem bareArrayRun_totalCount_eq_length :
    runUI (mount none) bareArrayRun = some (run (mount none) bareArrayRun) ∧
    (run (mount none) bareArrayRun).log.getLast? = some (Obs.applied 0 false) ∧
    (run (mount none) bareArrayRun).hasMore = true ∧
    (run (mount none) bareArrayRun).mappings.length = 2 ∧
    (run (mount none) bareArrayRun).totalCount = Prim.num 2 := by
  decide

theorem onResolved_totalCount (s : State) (r : Request) (data : Resp) (hm : s.mounted = true)
    (hd : ∀ q, data ≠ Resp.prim q) :
    (fetchMappingsSettle s r (Outcome.resolved data)).1.totalCount =
      (if (paginationInfoOf data).getProp "total_count" != Prim.undefined then
        (paginationInfoOf data).getProp "total_count"
      else if !r.isLoadMore then
        Prim.num ((mappingsArrayOf data).length +
          (if ((paginationInfoOf data).getProp "has_more").truthy then pageSize else 0))
      else s.totalCount) := by
  cases data with
  | prim q => exact absurd rfl (hd q)
  | array xs =>
    simp only [fetchMappingsSettle, onResolved, hm, Bool.not_true, Bool.false_eq_true, if_false,
      (finallyBlock_frame _ _).2.2.2.2.2.1]
  | object fields =>
    simp only [fetchMappingsSettle, onResolved, hm, Bool.not_true, Bool.false_eq_true, if_false,
      (finallyBlock_frame _ _).2.2.2.2.2.1]

/-- C27 (amended): in the mounted view, after a successful fetch `totalCount`
is `pagination_info.total_count` whenever that is not `undefined`; otherwise
after a fresh fetch of `n` records it is `n + 50` if `has_more` is truthy and
`n` otherwise, and after a load-more it is unchanged. After a fresh fetch
without `total_count`, `totalCount` is greater than the length of the list when
`has_more` is truthy, and equal to it when `has_more` is absent, in which case
`hasMore` is true. -/
theorem totalCount_rule (s : State) (r : Request) (data : Resp) (hm : s.mounted = true)
    (hd : ∀ q, data ≠ Resp.prim q) :
    ((data.getProp "pagination_info").getProp "total_count" ≠ Prim.undefined →
      (fetchMappingsSettle s r (Outcome.resolved data)).1.totalCount =
        (data.getProp "pagination_info").getProp "total_count") ∧
    ((data.getProp "pagination_info").getProp "total_count" = Prim.undefined →
      r.isLoadMore = false →
      (fetchMappingsSettle s r (Outcome.resolved data)).1.mappings = mappingsArrayOf data ∧
      (fetchMappingsSettle s r (Outcome.resolved data)).1.totalCount =
        Prim.num ((mappingsArrayOf data).length +
          (if ((data.getProp "pagination_info").getProp "has_more").truthy then 50 else 0))) ∧
    ((data.getProp "pagination_info").getProp "total_count" = Prim.undefined →
      r.isLoadMore = true →
      (fetchMappingsSettle s r (Outcome.resolved data)).1.totalCount = s.totalCount) ∧
    ((data.getProp "pagination_info").getProp "total_count" = Prim.undefined →
      r.isLoadMore = false →
      ((data.getProp "pagination_info").getProp "has_more").truthy = true →
      ∃ k : Int, (fetchMappingsSettle s r (Outcome.resolved data)).1.totalCount = Prim.num k ∧
        ((fetchMappingsSettle s r (Outcome.resolved data)).1.mappings.length : Int) < k) ∧
    ((data.getProp "pagination_info").getProp "total_count" = Prim.undefined →
      r.isLoadMore = false →
      (data.getProp "pagination_info").getProp "has_more" = Prim.undefined →
      (fetchMappingsSettle s r (Outcome.resolved data)).1.hasMore = true ∧
      (fetchMappingsSettle s r (Outcome.resolved data)).1.totalCount =
        Prim.num (fetchMappingsSettle s r (Outcome.resolved data)).1.mappings.length) := by
  have ht := onResolved_totalCount s r data hm hd
  have hmap := (onResolved_success s r data hm hd).1
  have hhas := (onResolved_success s r data hm hd).2.2.2.2.1
  rw [paginationInfoOf_getProp, paginationInfoOf_getProp] at ht
  rw [paginationInfoOf_getProp] at hhas
  refine ⟨?_, ?_, ?_, ?_, ?_⟩
  · intro h
    rw [ht]
    simp [h]
  · intro h hr
    rw [ht, hmap, hr, h]
    simp [pageSize]
  · intro h hr
    rw [ht, hr, h]
    simp
  · intro h hr hmore
    refine ⟨((mappingsArrayOf data).length : Int) + 50, ?_, ?_⟩
    · rw [ht, hr, h, hmore]
      simp [pageSize]
    · rw [hmap, hr]
      simp
  · intro h hr hmore
    rw [ht, hhas, hmap, hr, h, hmore]
    simp [Prim.truthy]

/-- An instance: the mount's fresh fetch resolves with two records and
`has_more: true`; `totalCount` is 52. -/
theorem totalCount_rule_witness :
    (run (mount none) [Event.fireLoadTimer]).mounted = true ∧
    (fetchMappingsSettle (run (mount none) [Event.fireLoadTimer])
      (requestOf (mount none) false emptyFilters)
      (Outcome.resolved (samplePage [sampleRecord 1, sampleRecord 2] true))).1.totalCount =
      Prim.num 52 :=
  ⟨by decide,
   ((totalCount_rule (run (mount none) [Event.fireLoadTimer])
      (requestOf (mount none) false emptyFilters)
      (samplePage [sampleRecord 1, sampleRecord 2] true) (by decide)
      (fun q hq => by simp [samplePage] at hq)).2.1 (by decide) (by decide)).2⟩

end LawMapping

namespace MappingDetails

open LawMapping (Prim Obj isJsWhitespace)

/-! ### Back to the list -/

/-- C25 fails on this input: the list is opened under `bsa_iea` and shows
`genericRecord`, which has only the generic section fields; the record is
opened with `viewMappingDetails`, which passes the current mapping type
`bsa_iea` along; `goBack` on the details page navigates to
`/law-mapping?type=bns_ipc`, and the list opened with that parameter starts
under `bns_ipc`. -/
theorem goBack_generic_record :
    LawMapping.runUI (LawMapping.mount (some "bsa_iea")) evidenceListLoaded =
      some (LawMapping.run (LawMapping.mount (some "bsa_iea")) evidenceListLoaded) ∧
    (LawMapping.run (LawMapping.mount (some "bsa_iea")) evidenceListLoaded).mappingType =
      "bsa_iea" ∧
    (LawMapping.run (LawMapping.mount (some "bsa_iea")) evidenceListLoaded).mappings =
      [genericRecord] ∧
    (LawMapping.viewMappingDetails
      (LawMapping.run (LawMapping.mount (some "bsa_iea")) evidenceListLoaded)
      genericRecord).mappingType = "bsa_iea" ∧
    goBack (mappingFromLocation (some (LawMapping.viewMappingDetails
      (LawMapping.run (LawMapping.mount (some "bsa_iea")) evidenceListLoaded)
      genericRecord))) = "/law-mapping?type=bns_ipc" ∧
    LawMapping.getInitialMappingType (some "bns_ipc") = "bns_ipc" := by
  decide

/-! ### The notes popup -/

/-- C28 as stated fails: in a viewport 1280 wide and 360 high, the popup of
the initial size 500 by 400 is dragged with the mouse at (300, 200) and the
drag offset (20, 10); the new position is (280, 0), and its lower edge
0 + 400 lies below the viewport height 360. -/
theorem dragMove_exceeds_viewport :
    dragMove 1280 360 initialPopupSize { x := 20, y := 10 } 300 200 = { x := 280, y := 0 } ∧
    ¬ ((dragMove 1280 360 initialPopupSize { x := 20, y := 10 } 300 200).y +
        initialPopupSize.height ≤ 360) := by
  decide

/-- C28 (amended): for every viewport size, popup size, drag offset and mouse
position in whole pixels, after a drag mouse-move `0 ≤ x` and `0 ≤ y`; the
right edge stays inside the viewport whenever the popup is not wider than the
viewport, and the lower edge whenever it is not higher; a popup wider (higher)
than the viewport is put at `x = 0` (`y = 0`). -/
theorem dragMove_bounds (innerWidth innerHeight : Int) (popupSize : Size) (dragOffset : Point)
    (clientX clientY : Int) :
    0 ≤ (dragMove innerWidth innerHeight popupSize dragOffset clientX clientY).x ∧
    0 ≤ (dragMove innerWidth innerHeight popupSize dragOffset clientX clientY).y ∧
    (popupSize.width ≤ innerWidth →
      (dragMove innerWidth innerHeight popupSize dragOffset clientX clientY).x +
        popupSize.width ≤ innerWidth) ∧
    (popupSize.height ≤ innerHeight →
      (dragMove innerWidth innerHeight popupSize dragOffset clientX clientY).y +
        popupSize.height ≤ innerHeight) ∧
    (innerWidth < popupSize.width →
      (dragMove innerWidth innerHeight popupSize dragOffset clientX clientY).x = 0) ∧
    (innerHeight < popupSize.height →
      (dragMove innerWidth innerHeight popupSize dragOffset clientX clientY).y = 0) := by
  simp only [dragMove]
  refine ⟨le_max_left _ _, le_max_left _ _, ?_, ?_, ?_, ?_⟩
  · intro h
    rcases max_cases 0 (min (clientX - dragOffset.x) (innerWidth - popupSize.width)) with h1 | h1
    · rw [h1.1]; omega
    · rw [h1.1]
      have := min_le_right (clientX - dragOffset.x) (innerWidth - popupSize.width)
      omega
  · intro h
    rcases max_cases 0 (min (clientY - dragOffset.y) (innerHeight - popupSize.height)) with h1 | h1
    · rw [h1.1]; omega
    · rw [h1.1]
      have := min_le_right (clientY - dragOffset.y) (innerHeight - popupSize.height)
      omega
  · intro h
    apply max_eq_left
    have := min_le_right (clientX - dragOffset.x) (innerWidth - popupSize.width)
    omega
  · intro h
    apply max_eq_left
    have := min_le_right (clientY - dragOffset.y) (innerHeight - popupSize.height)
    omega

/-- An instance: in a viewport of 1280 by 800 the popup of the initial size
is dragged far to the right; its right edge stays inside. -/
theorem dragMove_bounds_witness :
    initialPopupSize.width ≤ 1280 ∧
    (dragMove 1280 800 initialPopupSize { x := 20, y := 10 } 1270 200).x +
      initialPopupSize.width ≤ 1280 :=
  ⟨by decide,
   (dragMove_bounds 1280 800 initialPopupSize { x := 20, y := 10 } 1270 200).2.2.1
     (by decide)⟩

end MappingDetails

namespace App

/-! ### The footer -/

theorem jsStartsWith_iff (s start : String) :
    jsStartsWith s start = true ↔ ∃ rest : String, s = start ++ rest := by
  unfold jsStartsWith
  rw [ List.isPrefixOf_iff_prefix]
  constructor
  · rintro ⟨t, ht⟩
    exact ⟨String.mk t, String.ext (by rw [String.data_append]; exact ht.symm)⟩
  · rintro ⟨rest, h⟩
    exact ⟨rest.data, by rw [h, String.data_append]⟩

/-- C26 as stated fails: on `/law-mapping`, which is none of `/login`,
`/signup`, `/dashboard`, `/profile` and no sub-path of one of them, the footer
is hidden. -/
theorem footer_hidden_on_law_mapping :
    shouldShowFooter "/law-mapping" = false ∧
    "/law-mapping" ∉ ["/login", "/signup", "/dashboard", "/profile"] ∧
    (["/login", "/signup", "/dashboard", "/profile"].any
      (fun p => jsStartsWith "/law-mapping" (p ++ "/"))) = false := by
  decide

/-- C26 (amended): for every pathname other than `/signup` and its sub-paths,
the footer is hidden exactly when the pathname is one of the twelve paths of
`hideFooterPaths` or starts with one of them followed by `/`. -/
theorem shouldShowFooter_false_iff (pathname : String)
    (_hs : pathname ≠ "/signup" ∧ jsStartsWith pathname "/signup/" = false) :
    shouldShowFooter pathname = false ↔
      ∃ path ∈ ["/", "/home", "/login", "/dashboard", "/profile", "/judgment-access",
          "/judgment", "/acts", "/mapping-details", "/law-library", "/legal-chatbot",
          "/law-mapping"],
        pathname = path ∨ ∃ rest : String, pathname = path ++ "/" ++ rest := by
  unfold shouldShowFooter
  rw [Bool.not_eq_false_eq_eq_true, List.any_eq_true]
  constructor
  · rintro ⟨path, hmem, h⟩
    refine ⟨path, hmem, ?_⟩
    rcases Bool.or_eq_true _ _ ▸ h with h1 | h1
    · exact Or.inl (by simpa using h1)
    · exact Or.inr ((jsStartsWith_iff _ _).mp h1)
  · rintro ⟨path, hmem, h⟩
    refine ⟨path, hmem, ?_⟩
    rcases h with h1 | h1
    · simp [h1]
    · rw [Bool.or_eq_true]
      exact Or.inr ((jsStartsWith_iff _ _).mpr h1)

/-- An instance: a sub-path of `/login` hides the footer. -/
theorem shouldShowFooter_false_iff_witness :
    ("/login/reset" ≠ "/signup" ∧ jsStartsWith "/login/reset" "/signup/" = false) ∧
    shouldShowFooter "/login/reset" = false :=
  ⟨by decide,
   (shouldShowFooter_false_iff "/login/reset" (by decide)).mpr
     ⟨"/login", by decide, Or.inr ⟨"reset", by decide⟩⟩⟩

end App

namespace LegalChatbot

open LawMapping (Prim Obj)

/-! ### Regenerating an answer -/

/-- C29 as stated fails: in a conversation of two questions and two answers,
`regenerate` of the first answer (id 11, directly after the user message 10)
leaves the first question and the new answer; the second question and its
answer are gone. -/
theorem regenerate_drops_later_messages :
    twoRounds.map (fun m => (m.id, m.sender)) =
      [(10, "user"), (11, "bot"), (20, "user"), (21, "bot")] ∧
    regenerate twoRounds 11 (ChatOutcome.resolved [("reply", Prim.str "Bail, again.")]) 100
        "2025-01-01T00:01:00.000Z" =
      [userMsg 10 "What is bail?",
       regeneratedMessage (ChatOutcome.resolved [("reply", Prim.str "Bail, again.")]) 100
        "2025-01-01T00:01:00.000Z"] ∧
    userMsg 20 "Who grants it?" ∉
      regenerate twoRounds 11 (ChatOutcome.resolved [("reply", Prim.str "Bail, again.")]) 100
        "2025-01-01T00:01:00.000Z" ∧
    botMsg 21 "The court." ∉
      regenerate twoRounds 11 (ChatOutcome.resolved [("reply", Prim.str "Bail, again.")]) 100
        "2025-01-01T00:01:00.000Z" := by
  decide

/-- C29 (amended): when the first message with the id `messageId` is at index
`i + 1` and the message at index `i` before it was sent by the user,
`regenerate(messageId)` keeps the messages before index `i + 1` in their order,
removes the message at `i + 1` and every message after it, and appends one new
bot message, whether the remote call succeeds or fails; when the regenerated
message is the last of the conversation, only it is replaced. -/
theorem regenerate_truncates (messages : List Message) (messageId : Int) (o : ChatOutcome)
    (now : Int) (iso : String) (i : Nat) (user : Message)
    (hi : messages.findIdx? (fun m => m.id == messageId) = some (i + 1))
    (hu : messages[i]? = some user) (hs : user.sender = "user") :
    regenerateStart messages messageId = some (messages.take (i + 1), user.text) ∧
    regenerate messages messageId o now iso =
      messages.take (i + 1) ++ [regeneratedMessage o now iso] ∧
    (regeneratedMessage o now iso).sender = "bot" ∧
    (i + 2 = messages.length →
      regenerate messages messageId o now iso =
        messages.dropLast ++ [regeneratedMessage o now iso]) := by
  have hstart : regenerateStart messages messageId = some (messages.take (i + 1), user.text) := by
    unfold regenerateStart
    simp [hi, hu, hs]
  have hreg : regenerate messages messageId o now iso =
      messages.take (i + 1) ++ [regeneratedMessage o now iso] := by
    unfold regenerate
    rw [hstart]
    rfl
  refine ⟨hstart, hreg, ?_, ?_⟩
  · cases o <;> rfl
  · intro hlen
    rw [hreg, List.dropLast_eq_take, ← hlen]
    rfl

/-- An instance: regenerating the last answer of `twoRounds` replaces only
that answer. -/
theorem regenerate_truncates_witness :
    twoRounds.findIdx? (fun m => m.id == 21) = some (2 + 1) ∧
    regenerate twoRounds 21 ChatOutcome.failed 100 "2025-01-01T00:01:00.000Z" =
      twoRounds.take 3 ++ [regeneratedMessage ChatOutcome.failed 100 "2025-01-01T00:01:00.000Z"] :=
  ⟨by decide,
   (regenerate_truncates twoRounds 21 ChatOutcome.failed 100 "2025-01-01T00:01:00.000Z" 2
      (userMsg 20 "Who grants it?") (by decide) (by decide) (by decide)).2.1⟩

end LegalChatbot

namespace MappingDetails

open LawMapping (Prim Obj isJsWhitespace)

/-! ### Note titles -/

theorem splitLines_ne_nil (l : List Char) : splitLines l ≠ [] := by
  induction l with
  | nil => simp [splitLines]
  | cons c cs ih =>
    unfold splitLines
    split_ifs
    · simp
    · cases h : splitLines cs with
      | nil => exact absurd h ih
      | cons x xs => simp

theorem splitLines_no_lf (l : List Char) : ∀ x ∈ splitLines l, '\n' ∉ x := by
  induction l with
  | nil => simp [splitLines]
  | cons c cs ih =>
    intro x hx
    unfold splitLines at hx
    split_ifs at hx with hc
    · rcases List.mem_cons.mp hx with h | h
      · subst h; simp
      · exact ih x h
    · cases h : splitLines cs with
      | nil => exact absurd h (splitLines_ne_nil cs)
      | cons y ys =>
        rw [h] at hx ih
        rcases List.mem_cons.mp hx with h1 | h1
        · subst h1
          intro hmem
          rcases List.mem_cons.mp hmem with h2 | h2
          · exact hc h2.symm
          · exact ih y (List.mem_cons_self _ _) h2
        · exact ih x (List.mem_cons_of_mem _ h1)

theorem splitLines_single (l : List Char) (h : '\n' ∉ l) : splitLines l = [l] := by
  induction l with
  | nil => rfl
  | cons c cs ih =>
    have hc : c ≠ '\n' := fun hc => h (hc ▸ List.mem_cons_self _ _)
    have hcs : '\n' ∉ cs := fun hm => h (List.mem_cons_of_mem _ hm)
    unfold splitLines
    rw [if_neg hc, ih hcs]

theorem trimChars_subset (l : List Char) : ∀ x ∈ trimChars l, x ∈ l := by
  intro x hx
  unfold trimChars at hx
  obtain ⟨t, ht⟩ := List.rdropWhile_prefix isJsWhitespace (l.dropWhile isJsWhitespace)
  have hm : x ∈ l.dropWhile isJsWhitespace := ht ▸ List.mem_append_left t hx
  exact (List.dropWhile_sublist isJsWhitespace).subset hm

theorem trimChars_idem (l : List Char) : trimChars (trimChars l) = trimChars l := by
  unfold trimChars
  have hd : List.dropWhile isJsWhitespace
      ((l.dropWhile isJsWhitespace).rdropWhile isJsWhitespace) =
      (l.dropWhile isJsWhitespace).rdropWhile isJsWhitespace := by
    obtain ⟨t, ht⟩ := List.rdropWhile_prefix isJsWhitespace (l.dropWhile isJsWhitespace)
    have hh := List.head?_dropWhile_not isJsWhitespace l
    cases hr : (l.dropWhile isJsWhitespace).rdropWhile isJsWhitespace with
    | nil => rfl
    | cons a r =>
      rw [hr] at ht
      rw [← ht] at hh
      simp only [List.cons_append, List.head?_cons] at hh
      simp [List.dropWhile, hh]
  rw [hd, List.rdropWhile_idempotent]

theorem jsTrim_idem (s : String) : jsTrim (jsTrim s) = jsTrim s := by
  unfold jsTrim
  rw [trimChars_idem]

theorem jsTrim_no_lf (s : String) (h : '\n' ∉ s.data) : '\n' ∉ (jsTrim s).data :=
  fun hm => h (trimChars_subset s.data _ hm)

theorem jsTrim_empty : jsTrim "" = "" := by decide

theorem jsSplitLines_no_lf (s : String) : ∀ x ∈ jsSplitLines s, '\n' ∉ x.data := by
  intro x hx
  unfold jsSplitLines at hx
  obtain ⟨l, hl, rfl⟩ := List.mem_map.mp hx
  exact splitLines_no_lf s.data l hl

theorem jsSplitLines_single (s : String) (h : '\n' ∉ s.data) : jsSplitLines s = [s] := by
  unfold jsSplitLines
  rw [splitLines_single s.data h]
  rfl

theorem extractTitleOnly_trimmed (t : String) (hlf : '\n' ∉ t.data) (ht : jsTrim t = t) :
    extractTitleOnly (some t) = t := by
  unfold extractTitleOnly
  by_cases h0 : t = ""
  · simp [h0]
  · simp only [h0, if_false, jsSplitLines_single t hlf, List.head?_cons, ht, List.find?_cons,
      List.find?_nil]
    cases isTitleLine t with
    | true => simp [h0, ht]
    | false => rfl

theorem extractTitleOnly_form (content : Option String) :
    extractTitleOnly content = "" ∨
      ∃ l, '\n' ∉ l.data ∧ extractTitleOnly content = jsTrim l := by
  unfold extractTitleOnly
  cases content with
  | none => exact Or.inl rfl
  | some c =>
    by_cases h0 : c = ""
    · exact Or.inl (by simp [h0])
    · have hfirst : (match (jsSplitLines c).head? with
          | some l => jsTrim l
          | none => "") = "" ∨
          ∃ l, '\n' ∉ l.data ∧ (match (jsSplitLines c).head? with
          | some l => jsTrim l
          | none => "") = jsTrim l := by
        cases hh : (jsSplitLines c).head? with
        | none => exact Or.inl rfl
        | some l =>
          exact Or.inr ⟨l, jsSplitLines_no_lf c l (List.mem_of_mem_head? hh), rfl⟩
      simp only [h0, if_false]
      cases hf : (jsSplitLines c).find? isTitleLine with
      | none => exact hfirst
      | some titleLine =>
        by_cases ht : titleLine = ""
        · simpa [ht] using hfirst
        · refine Or.inr ⟨titleLine, jsSplitLines_no_lf c titleLine (List.mem_of_find?_eq_some hf), ?_⟩
          simp [ht]

/-- C30: `extractTitleOnly` is idempotent, for every content string and for a
missing content, and so is the clean-up of the stored folders that the load
effect applies: cleaning folders that were already cleaned leaves them as
they are. -/
theorem extractTitleOnly_idempotent (content : Option String) (folders : List NoteFolder) :
    extractTitleOnly (some (extractTitleOnly content)) = extractTitleOnly content ∧
    cleanFolders (cleanFolders folders) = cleanFolders folders := by
  have hidem : ∀ c, extractTitleOnly (some (extractTitleOnly c)) = extractTitleOnly c := by
    intro c
    rcases extractTitleOnly_form c with h | ⟨l, hl, h⟩
    · rw [h]; decide
    · rw [h]
      exact extractTitleOnly_trimmed _ (jsTrim_no_lf l hl) (jsTrim_idem l)
  refine ⟨hidem content, ?_⟩
  unfold cleanFolders
  rw [List.map_map]
  apply List.map_congr_left
  intro f _
  simp [hidem]

/-- An instance: a note with a body keeps only its title line, and cleaning
the result again changes nothing. -/
theorem extractTitleOnly_idempotent_witness :
    extractTitleOnly (some "intro \n  # Bail notes \nbody") = "# Bail notes" ∧
    extractTitleOnly (some (extractTitleOnly (some "intro \n  # Bail notes \nbody"))) =
      extractTitleOnly (some "intro \n  # Bail notes \nbody") :=
  ⟨by decide, (extractTitleOnly_idempotent (some "intro \n  # Bail notes \nbody") []).1⟩

end MappingDetails
